import Mathlib

/-!
Verification of the variable-refresh-rate (VRR) control subsystem of the
display hardware composer driver: a shallow embedding, in Lean, of the
integer rounding utilities (Utils.h), the valid-refresh-rate lattice and
rate mapping of the VRR controller (VariableRefreshRateController.cpp),
the event-queue drop primitive, the configuration-table setter, the
present entry point, the fixed-refresh-rate-range setter, and the
statistics aggregator (VariableRefreshRateStatistic.cpp), together with
theorems settling the stated correctness properties.

Machine integers (int, int64_t, uint32_t) are modelled as Int or Nat;
the quantities involved (nanosecond timestamps, frequencies in Hz) stay
far below the overflow thresholds of the source types, and the uint32_t
bit-register arithmetic carries an explicit reduction modulo 2^32.
-/

namespace VrrModel

/-! ## Rounding utilities, from libhwc2.1/libvrr/Utils.h -/

/-- roundDivide from Utils.h: returns 0 when the dividend is negative or
the divisor is non-positive, otherwise the rounded quotient
(divident + divisor / 2) / divisor in integer arithmetic. -/
def roundDivide (divident divisor : Int) : Int :=
  if divident < 0 || divisor <= 0 then 0
  else (divident + divisor / 2) / divisor

/-- std::nano::den, the number of nanoseconds per second. -/
def nanoDen : Int := 1000000000

/-- durationNsToFreq from Utils.h. -/
def durationNsToFreq (durationNs : Int) : Int :=
  roundDivide nanoDen durationNs

/-- freqToDurationNs from Utils.h. -/
def freqToDurationNs (freq : Int) : Int :=
  roundDivide nanoDen freq

/-- kMillisecondToNanoSecond from Utils.h. -/
def kMillisecondToNanoSecond : Int := 1000000

/-- PresentFrameFlag::kPresentingWhenDoze from Utils.h. -/
def kPresentingWhenDoze : Int := 4

/-- hasPresentFrameFlag from Utils.h (bitwise test on the flag word). -/
def hasPresentFrameFlag (flag target : Int) : Bool :=
  flag.toNat &&& target.toNat != 0

/-! ## Power modes (hardware/hwcomposer_defs.h values used by the source) -/

def HWC_POWER_MODE_OFF : Int := 0
def HWC_POWER_MODE_DOZE : Int := 1
def HWC_POWER_MODE_NORMAL : Int := 2
def HWC_POWER_MODE_DOZE_SUSPEND : Int := 3

/-- isPowerModeOff from Utils.cpp: both power off and doze-suspend count
as the off class. -/
def isPowerModeOff (powerMode : Int) : Bool :=
  powerMode == HWC_POWER_MODE_OFF || powerMode == HWC_POWER_MODE_DOZE_SUSPEND

/-! ## Refresh sources, from interface/VariableRefreshRateInterface.h -/

def kRefreshSourceActivePresent : Int := 1
def kRefreshSourceIdlePresent : Int := 2
def kRefreshSourceFrameInsertion : Int := 4
def kRefreshSourceBrightness : Int := 8

def kRefreshSourcePresentMask : Int :=
  kRefreshSourceActivePresent + kRefreshSourceIdlePresent

/-- Modelled from the spec: isPresentRefresh (declared in the display
context interface headers, absent from the sources at hand) tests a
refresh source against the present mask of
interface/VariableRefreshRateInterface.h. -/
def isPresentRefresh (refreshSource : Int) : Bool :=
  refreshSource.toNat &&& kRefreshSourcePresentMask.toNat != 0

/-! ## Brightness modes

Modelled from the spec: the BrightnessMode enumeration lives in the
display context provider headers, absent from the sources at hand; the
residency provider iterates from kNormalBrightnessMode up to
kInvalidBrightnessMode, giving the order normal, high, invalid. -/

def kNormalBrightnessMode : Int := 0
def kHighBrightnessMode : Int := 1
def kInvalidBrightnessMode : Int := 2

/-! ## VRR configurations -/

/-- The notifyExpectedPresentConfig sub-configuration carried by a fully
supported VRR configuration. -/
structure NotifyExpectedPresentConfig where
  TimeoutNs : Int
  HeadsUpNs : Int
deriving Repr, DecidableEq

/-- VrrConfig_t, restricted to the fields the controller reads. -/
structure VrrConfig where
  vsyncPeriodNs : Int
  minFrameIntervalNs : Int
  isFullySupported : Bool
  notifyExpectedPresentConfig : Option NotifyExpectedPresentConfig
deriving Repr, DecidableEq

/-! ## Sorted-unique insertion, modelling std::set<int> iteration order

generateValidRefreshRates pours the candidate list into a std::set<int>
and reads it back: the result is the input list deduplicated and sorted
ascending.  insertUnique inserts one element into a sorted duplicate-free
list, preserving both properties. -/

def insertUnique (x : Int) : List Int → List Int
  | [] => [x]
  | y :: ys =>
    if x < y then x :: y :: ys
    else if x = y then y :: ys
    else y :: insertUnique x ys

/-- Collect a list into a sorted duplicate-free list, as a std::set
constructed from the list would iterate. -/
def sortedUnique (l : List Int) : List Int :=
  l.foldl (fun acc r => insertUnique r acc) []

/-- The integers from lo to hi inclusive, in order (the iteration space
of a C++ for loop from lo while <= hi). -/
def intRangeList (lo hi : Int) : List Int :=
  (List.range (hi + 1 - lo).toNat).map (fun k => lo + Int.ofNat k)

/-- generateValidRefreshRates from VariableRefreshRateController.cpp:
for vsync counts from roundDivide(minFrameIntervalNs, vsyncPeriodNs) up
to the TE frequency, the candidate rate roundDivide(TE, n) is collected;
the candidates are deduplicated and sorted through a std::set. -/
def generateValidRefreshRates (config : VrrConfig) : List Int :=
  let teFrequency := durationNsToFreq config.vsyncPeriodNs
  let minVsyncNum := roundDivide config.minFrameIntervalNs config.vsyncPeriodNs
  let refreshRates :=
    (intRangeList minVsyncNum teFrequency).map
      (fun vsyncNum => roundDivide teFrequency vsyncNum)
  sortedUnique refreshRates

/-! ## Statistics data model, from Statistics/VariableRefreshRateStatistic.h

DisplayStatus and DisplayRefreshProfile are the statistics key; the
orderings and the off-class collapse are translated from the operator<
and operator== definitions in the header.  std::map keeps one entry per
equivalence class of operator<; here the map is an association list with
lookups modulo that equivalence, and the stored key of an entry is the
first-inserted representative, exactly as in std::map. -/

structure DisplayStatus where
  mActiveConfigId : Int := -1
  mPowerMode : Int := HWC_POWER_MODE_OFF
  mBrightnessMode : Int := kInvalidBrightnessMode
deriving Repr, DecidableEq

/-- DisplayStatus::isOff. -/
def DisplayStatus.isOff (s : DisplayStatus) : Bool :=
  s.mPowerMode == HWC_POWER_MODE_OFF || s.mPowerMode == HWC_POWER_MODE_DOZE_SUSPEND

/-- DisplayStatus::operator==. -/
def DisplayStatus.eqv (a b : DisplayStatus) : Bool :=
  if a.isOff || b.isOff then a.isOff == b.isOff
  else a.mActiveConfigId == b.mActiveConfigId && a.mPowerMode == b.mPowerMode
    && a.mBrightnessMode == b.mBrightnessMode

/-- DisplayStatus::operator<. -/
def DisplayStatus.lt (a b : DisplayStatus) : Bool :=
  if a.isOff && b.isOff then false
  else if a.mPowerMode != b.mPowerMode then a.isOff || a.mPowerMode < b.mPowerMode
  else if a.mActiveConfigId != b.mActiveConfigId then a.mActiveConfigId < b.mActiveConfigId
  else a.mBrightnessMode < b.mBrightnessMode

structure DisplayRefreshProfile where
  mCurrentDisplayConfig : DisplayStatus := {}
  mTeFrequency : Int := 0
  mWidth : Int := 0
  mHeight : Int := 0
  mNumVsync : Int := -1
  mRefreshSource : Int := kRefreshSourceActivePresent
deriving Repr, DecidableEq

/-- DisplayRefreshProfile::isOff. -/
def DisplayRefreshProfile.isOff (p : DisplayRefreshProfile) : Bool :=
  p.mCurrentDisplayConfig.isOff

/-- DisplayRefreshProfile::operator<. -/
def DisplayRefreshProfile.lt (a b : DisplayRefreshProfile) : Bool :=
  if (a.isOff || b.isOff) && (a.isOff == b.isOff) then false
  else if !(DisplayStatus.eqv a.mCurrentDisplayConfig b.mCurrentDisplayConfig) then
    DisplayStatus.lt a.mCurrentDisplayConfig b.mCurrentDisplayConfig
  else if a.mNumVsync != b.mNumVsync then a.mNumVsync < b.mNumVsync
  else a.mRefreshSource < b.mRefreshSource

/-- std::map key equivalence induced by DisplayRefreshProfile::operator<. -/
def profileEquiv (a b : DisplayRefreshProfile) : Bool :=
  !(DisplayRefreshProfile.lt a b) && !(DisplayRefreshProfile.lt b a)

/-- DisplayRefreshRecord, the statistics value. -/
structure DisplayRefreshRecord where
  mCount : Int := 0
  mAccumulatedTimeNs : Int := 0
  mLastTimeStampInBootClockNs : Int := 0
  mUpdated : Bool := false
deriving Repr, DecidableEq

/-- DisplayRefreshStatistics, the std::map from profiles to records, as
an association list with at most one entry per profileEquiv class. -/
abbrev DisplayRefreshStatistics : Type :=
  List (DisplayRefreshProfile × DisplayRefreshRecord)

/-- Map lookup (std::map::find). -/
def statsFind (m : DisplayRefreshStatistics) (k : DisplayRefreshProfile) :
    Option DisplayRefreshRecord :=
  (m.find? (fun e => profileEquiv e.1 k)).map (fun e => e.2)

/-- Map access-and-mutate (std::map::operator[] followed by a mutation
of the referenced record): on a miss a default record is inserted first. -/
def statsUpdate (m : DisplayRefreshStatistics) (k : DisplayRefreshProfile)
    (f : DisplayRefreshRecord → DisplayRefreshRecord) : DisplayRefreshStatistics :=
  match m with
  | [] => [(k, f {})]
  | e :: rest =>
    if profileEquiv e.1 k then (e.1, f e.2) :: rest else e :: statsUpdate rest k f

/-- Read through std::map::operator[] without mutation: a miss inserts a
default record. -/
def statsGet (m : DisplayRefreshStatistics) (k : DisplayRefreshProfile) :
    DisplayRefreshStatistics × DisplayRefreshRecord :=
  match statsFind m k with
  | some r => (m, r)
  | none => (m ++ [(k, {})], {})

/-! ## Statistics state and operations, from VariableRefreshRateStatistic.cpp

Timestamps handed to the statistics operations are boot-clock
nanoseconds; the steadyClockTimeToBootClockTimeNs conversion applied by
the callers is an external clock affine map and is carried by the
controller environment below.  Each operation that reads the wall clock
(getBootClockTimeNs) takes it as the explicit argument nowBootNs. -/

/-- kMaxRefreshIntervalNs from the statistics header (one second). -/
def kMaxRefreshIntervalNs : Int := nanoDen

/-- kFrameRateWhenPresentAtLpMode from the statistics header. -/
def kFrameRateWhenPresentAtLpMode : Int := 30

structure StatState where
  mMaxFrameRate : Int
  mMaxTeFrequency : Int
  mMinFrameIntervalNs : Int
  mTeFrequency : Int
  mTeIntervalNs : Int
  mMinimumRefreshRate : Int := 1
  mMaximumFrameIntervalNs : Int := kMaxRefreshIntervalNs
  mLastRefreshTimeInBootClockNs : Option Int := none
  mDisplayRefreshProfile : DisplayRefreshProfile := {}
  mStatistics : DisplayRefreshStatistics := []
  mPowerOffDurationNs : Int := 0
  mStartStatisticTimeNs : Int := 0
deriving Repr, DecidableEq

/-- The VariableRefreshRateStatistic constructor: initial profile is the
default (power off, numVsync -1) and the permanently tracked off record
is inserted immediately. -/
def statInit (maxFrameRate maxTeFrequency : Int) (nowBootNs : Int) : StatState :=
  { mMaxFrameRate := maxFrameRate
    mMaxTeFrequency := maxTeFrequency
    mMinFrameIntervalNs := roundDivide nanoDen maxFrameRate
    mTeFrequency := maxFrameRate
    mTeIntervalNs := roundDivide nanoDen maxFrameRate
    mStartStatisticTimeNs := nowBootNs
    mStatistics := [({}, {})] }

/-- isPowerModeOffNowLocked. -/
def isPowerModeOffNow (s : StatState) : Bool :=
  isPowerModeOff s.mDisplayRefreshProfile.mCurrentDisplayConfig.mPowerMode

/-- getPowerOffDurationNs. -/
def getPowerOffDurationNs (s : StatState) (nowBootNs : Int) : Int :=
  if isPowerModeOffNow s then
    match statsFind s.mStatistics s.mDisplayRefreshProfile with
    | none => 0
    | some item => s.mPowerOffDurationNs + (nowBootNs - item.mLastTimeStampInBootClockNs)
  else s.mPowerOffDurationNs

/-- updateCurrentDisplayStatus: refresh the brightness-mode field of the
scratch profile from the display context provider, normalizing an
invalid reading to normal brightness. -/
def updateCurrentDisplayStatus (s : StatState) (brightnessMode : Int) : StatState :=
  let bm := if brightnessMode == kInvalidBrightnessMode then kNormalBrightnessMode
            else brightnessMode
  { s with mDisplayRefreshProfile :=
      { s.mDisplayRefreshProfile with mCurrentDisplayConfig :=
        { s.mDisplayRefreshProfile.mCurrentDisplayConfig with mBrightnessMode := bm } } }

/-- updateIdleStats from VariableRefreshRateStatistic.cpp.  The C++
default argument endTimeStampInBootClockNs = -1 selects the current
boot-clock time.  All divisions run on non-negative operands, where C++
truncation and Lean floor division agree. -/
def updateIdleStats (s : StatState) (nowBootNs endTimeStampInBootClockNs : Int) : StatState :=
  if s.mDisplayRefreshProfile.isOff then s
  else
    match s.mLastRefreshTimeInBootClockNs with
    | none => s
    | some lastRefresh =>
      let endTs := if endTimeStampInBootClockNs < 0 then nowBootNs
                   else endTimeStampInBootClockNs
      let durationRaw := endTs - lastRefresh
      let durationFromLastPresentNs := if durationRaw < 0 then 0 else durationRaw
      if s.mDisplayRefreshProfile.mCurrentDisplayConfig.mPowerMode == HWC_POWER_MODE_DOZE then
        let profile := { s.mDisplayRefreshProfile with mNumVsync := s.mTeFrequency }
        { s with
          mDisplayRefreshProfile := profile
          mStatistics := statsUpdate s.mStatistics profile (fun r =>
            { r with
              mAccumulatedTimeNs := r.mAccumulatedTimeNs + durationFromLastPresentNs
              mLastTimeStampInBootClockNs := lastRefresh
              mUpdated := true })
          mLastRefreshTimeInBootClockNs := some endTs }
      else
        if s.mMinimumRefreshRate > 1
            && !(isPresentRefresh s.mDisplayRefreshProfile.mRefreshSource) then s
        else
          let numVsync := roundDivide durationFromLastPresentNs s.mTeIntervalNs
          let idleFrameVsyncs :=
            if s.mMinimumRefreshRate > 1 then s.mTeFrequency / s.mMinimumRefreshRate
            else s.mTeFrequency
          let profile := { s.mDisplayRefreshProfile with
            mRefreshSource := kRefreshSourceIdlePresent
            mNumVsync := idleFrameVsyncs }
          if numVsync <= idleFrameVsyncs then { s with mDisplayRefreshProfile := profile }
          else
            let count := (numVsync - 1) / idleFrameVsyncs
            let alignedDurationNs := s.mMaximumFrameIntervalNs * count
            let newLast := lastRefresh + alignedDurationNs
            { s with
              mDisplayRefreshProfile := profile
              mLastRefreshTimeInBootClockNs := some newLast
              mStatistics := statsUpdate s.mStatistics profile (fun r =>
                { r with
                  mCount := r.mCount + count
                  mAccumulatedTimeNs := r.mAccumulatedTimeNs + alignedDurationNs
                  mLastTimeStampInBootClockNs := newLast
                  mUpdated := true }) }

/-- onRefreshInternal from VariableRefreshRateStatistic.cpp, the common
handler behind onPresent and onNonPresentRefresh. -/
def onRefreshInternal (s : StatState) (brightnessMode : Int)
    (presentTimeInBootClockNs flag refreshSource : Int) : StatState :=
  match s.mLastRefreshTimeInBootClockNs with
  | none =>
    updateCurrentDisplayStatus
      { s with mLastRefreshTimeInBootClockNs := some presentTimeInBootClockNs } brightnessMode
  | some _ =>
    let s1 := updateIdleStats s presentTimeInBootClockNs presentTimeInBootClockNs
    let s2 := updateCurrentDisplayStatus s1 brightnessMode
    if hasPresentFrameFlag flag kPresentingWhenDoze then
      let profile := { s2.mDisplayRefreshProfile with
        mNumVsync := s2.mTeFrequency / kFrameRateWhenPresentAtLpMode }
      let newLastRefresh := presentTimeInBootClockNs + nanoDen / kFrameRateWhenPresentAtLpMode
      let s3 := { s2 with
        mDisplayRefreshProfile := profile
        mLastRefreshTimeInBootClockNs := some newLastRefresh }
      let s4 := { s3 with mStatistics := statsUpdate s3.mStatistics profile (fun r =>
        { r with
          mCount := r.mCount + 1
          mAccumulatedTimeNs := r.mAccumulatedTimeNs + s3.mTeIntervalNs * profile.mNumVsync
          mLastTimeStampInBootClockNs := presentTimeInBootClockNs
          mUpdated := true }) }
      let profileAod := { s4.mDisplayRefreshProfile with mNumVsync := s4.mTeFrequency }
      { s4 with
        mDisplayRefreshProfile := profileAod
        mStatistics := statsUpdate s4.mStatistics profileAod (fun r =>
          { r with
            mCount := r.mCount + 1
            mLastTimeStampInBootClockNs := newLastRefresh
            mUpdated := true }) }
    else
      let lastRefresh := s2.mLastRefreshTimeInBootClockNs.getD 0
      let numVsync0 := roundDivide (presentTimeInBootClockNs - lastRefresh) s2.mTeIntervalNs
      if numVsync0 == 0 then s2
      else
        let numVsync := max 1 (min s2.mTeFrequency numVsync0)
        let profile := { s2.mDisplayRefreshProfile with
          mNumVsync := numVsync
          mRefreshSource := refreshSource }
        let s3 := { s2 with
          mDisplayRefreshProfile := profile
          mLastRefreshTimeInBootClockNs := some presentTimeInBootClockNs }
        { s3 with mStatistics := statsUpdate s3.mStatistics profile (fun r =>
          { r with
            mCount := r.mCount + 1
            mAccumulatedTimeNs := r.mAccumulatedTimeNs + s3.mTeIntervalNs * profile.mNumVsync
            mLastTimeStampInBootClockNs := presentTimeInBootClockNs
            mUpdated := true }) }

/-- VariableRefreshRateStatistic::onPresent. -/
def statOnPresent (s : StatState) (brightnessMode : Int)
    (presentTimeInBootClockNs flag : Int) : StatState :=
  onRefreshInternal s brightnessMode presentTimeInBootClockNs flag kRefreshSourceActivePresent

/-- VariableRefreshRateStatistic::onNonPresentRefresh. -/
def statOnNonPresentRefresh (s : StatState) (brightnessMode : Int)
    (refreshTimeInBootClockNs refreshSource : Int) : StatState :=
  onRefreshInternal s brightnessMode refreshTimeInBootClockNs 0 refreshSource

/-- VariableRefreshRateStatistic::onPowerStateChange. -/
def statOnPowerStateChange (s : StatState) (fromMode toMode : Int) (nowBootNs : Int) :
    StatState :=
  if fromMode == toMode then s
  else
    let s1 := updateIdleStats s nowBootNs (-1)
    if isPowerModeOff toMode then
      let profile := { s1.mDisplayRefreshProfile with mCurrentDisplayConfig :=
        { s1.mDisplayRefreshProfile.mCurrentDisplayConfig with
          mPowerMode := HWC_POWER_MODE_OFF } }
      { s1 with
        mDisplayRefreshProfile := profile
        mStatistics := statsUpdate s1.mStatistics profile (fun r =>
          { r with
            mCount := r.mCount + 1
            mLastTimeStampInBootClockNs := nowBootNs
            mUpdated := true })
        mLastRefreshTimeInBootClockNs := none }
    else
      let s2 :=
        if isPowerModeOff fromMode then
          let gr := statsGet s1.mStatistics s1.mDisplayRefreshProfile
          { s1 with
            mStatistics := gr.1
            mPowerOffDurationNs :=
              s1.mPowerOffDurationNs + (nowBootNs - gr.2.mLastTimeStampInBootClockNs) }
        else s1
      let s3 := { s2 with mDisplayRefreshProfile :=
        { s2.mDisplayRefreshProfile with mCurrentDisplayConfig :=
          { s2.mDisplayRefreshProfile.mCurrentDisplayConfig with mPowerMode := toMode } } }
      if toMode == HWC_POWER_MODE_DOZE then
        let profile := { s3.mDisplayRefreshProfile with mNumVsync := s3.mTeFrequency }
        { s3 with
          mDisplayRefreshProfile := profile
          mStatistics := statsUpdate s3.mStatistics profile (fun r =>
            { r with
              mCount := r.mCount + 1
              mLastTimeStampInBootClockNs := nowBootNs
              mUpdated := true }) }
      else s3

/-- VariableRefreshRateStatistic::setFixedRefreshRate. -/
def setFixedRefreshRate (s : StatState) (rate : Int) (nowBootNs : Int) : StatState :=
  if s.mMinimumRefreshRate != rate then
    let s1 := updateIdleStats s nowBootNs (-1)
    let s2 := { s1 with mMinimumRefreshRate := rate }
    if rate > 1 then
      { s2 with mMaximumFrameIntervalNs := roundDivide nanoDen rate }
    else
      { s2 with mMaximumFrameIntervalNs := kMaxRefreshIntervalNs }
  else s

/-- getUpdatedStatistics from
src/libhwc2.1/libvrr/Statistics/VariableRefreshRateStatistic.cpp: after
an idle flush, the off-class record's accumulated time is recomputed on
demand, then EVERY record (updated or not) is copied into the returned
map, and no updated flag is cleared; finally, when the power mode is
off, the off record's updated flag is (re)set. -/
def getUpdatedStatistics (s : StatState) (nowBootNs : Int) :
    DisplayRefreshStatistics × StatState :=
  let s1 := updateIdleStats s nowBootNs (-1)
  let newStats := s1.mStatistics.map (fun e =>
    if e.2.mUpdated && e.1.mNumVsync < 0 then
      (e.1, { e.2 with mAccumulatedTimeNs := getPowerOffDurationNs s1 nowBootNs })
    else e)
  let s2 := { s1 with mStatistics := newStats }
  let s3 :=
    if isPowerModeOffNow s2 then
      { s2 with mStatistics := statsUpdate s2.mStatistics s2.mDisplayRefreshProfile (fun r =>
          { r with mUpdated := true }) }
    else s2
  (newStats, s3)

/-! ## Event types and the event queue, from interface/Event.h

VrrControllerEvent orders by deadline ascending (operator< compares
mWhenNs reversed, making the std::priority_queue a min-heap on time);
entries with equal deadlines pop in unspecified order.  The queue is
modelled as the multiset of its entries, in a list; popping takes an
entry with minimal deadline.  Functor payloads are runtime closures and
are modelled by a presence marker. -/

def kGeneralEventMask : Nat := 0x10000000
def kSystemRenderingTimeout : Nat := kGeneralEventMask + 1
def kVendorRenderingTimeoutInit : Nat := kGeneralEventMask + 2
def kVendorRenderingTimeoutPost : Nat := kGeneralEventMask + 4
def kHibernateTimeout : Nat := kGeneralEventMask + 8
def kNotifyExpectedPresentConfig : Nat := kGeneralEventMask + 16
def kTestEvent : Nat := kGeneralEventMask + 32
def kUpdateDbiFrameRate : Nat := kGeneralEventMask + 64
def kCallbackEventMask : Nat := 0x20000000
def kMinLockTimeForPeakRefreshRate : Nat := kCallbackEventMask + 128

/-- Modelled from the spec: kMinimumRefreshRateWaitForConfigTimeout is
declared in a controller header revision absent from the sources at
hand; it is a further general event code. -/
def kMinimumRefreshRateWaitForConfigTimeout : Nat := kGeneralEventMask + 128

/-- Modelled from the spec: kMinimumRefreshRateControlEventMask covers
the minimum-refresh-rate control events (the wait-for-config timeout and
the peak-refresh-rate lock timeout share this bit), so that one
dropEventLocked call cancels both. -/
def kMinimumRefreshRateControlEventMask : Nat := 128

structure VrrControllerEvent where
  mEventType : Nat
  mWhenNs : Int
  hasFunctor : Bool := false
deriving Repr, DecidableEq

abbrev EventQueue : Type := List VrrControllerEvent

/-- dropEventLocked(eventType) from VariableRefreshRateController.cpp:
the queue is drained and only the events whose type does NOT contain
every bit of the target mask are kept. -/
def dropEventLocked (q : EventQueue) (eventType : Nat) : EventQueue :=
  q.filter (fun e => e.mEventType &&& eventType != eventType)

/-- postEvent(type, whenNs). -/
def postEvent (q : EventQueue) (eventType : Nat) (whenNs : Int) : EventQueue :=
  q ++ [{ mEventType := eventType, mWhenNs := whenNs }]

/-- An entry with minimal deadline, as the min-heap top (ties
unspecified in the source; the first minimal entry is taken). -/
def queueTop (q : EventQueue) : Option VrrControllerEvent :=
  match q with
  | [] => none
  | e :: rest =>
    match queueTop rest with
    | none => some e
    | some m => if e.mWhenNs <= m.mWhenNs then some e else some m

/-! ## Controller state, from VariableRefreshRateController.{h,cpp}

The controller header revision is absent from the sources at hand; the
state record below is assembled from the fields the translated .cpp
functions read and write, with the auxiliary constants and the tiny
inline helpers (isMinimumRefreshRateActive, refresh-control bit layout)
modelled from the spec where noted.  External effects are made
observable: sysfs writes land in a write log, listener and calculator
invocations land in logs, and external readings (clock, brightness,
fence signal times, vendor timeout handler) come from an environment
record. -/

inductive VrrControllerState where
  | kDisable
  | kRendering
  | kHibernate
deriving Repr, DecidableEq

inductive PresentTimeoutControllerType where
  | kSoftware
  | kHardware
deriving Repr, DecidableEq

inductive MinimumRefreshRatePresentStates where
  | kMinRefreshRateUnset
  | kAtMinimumRefreshRate
  | kAtMaximumRefreshRate
  | kTransitionToMinimumRefreshRate
deriving Repr, DecidableEq

/-- The pending expected-present record stored in mRecord (config id,
expected present time, frame interval). -/
structure PresentTimeInfo where
  config : Int
  mTime : Int
  mFrameIntervalNs : Int
deriving Repr, DecidableEq

inductive VsyncEventType where
  | kVblank
  | kReleaseFence
deriving Repr, DecidableEq

structure VsyncEventInfo where
  mType : VsyncEventType
  mTime : Int
deriving Repr, DecidableEq

/-- The data of the stored TimedEvent for the minimum-refresh-rate
timeout (name and functor closure not modelled). -/
structure TimedEventInfo where
  mIsRelativeTime : Bool := true
  mWhenNs : Int := 0
deriving Repr, DecidableEq

/-- Vendor present-timeout override settings (functor not modelled). -/
structure PresentTimeoutSettings where
  mTimeoutNs : Int
  mSchedule : List (Nat × Nat)
deriving Repr, DecidableEq

/-- The sysfs refresh-control node, per the FileNode contract: a
last-written-value cache plus the sequence of values written. -/
structure FileNodeState where
  lastWrittenValue : Option Nat := none
  writtenValues : List Nat := []
deriving Repr, DecidableEq

/-- FileNode::writeValue under the contract: on success the cache and
the log advance and true is returned; a failed write leaves both
unchanged and returns false.  Success is dictated by the environment. -/
def fileNodeWriteValue (fn : FileNodeState) (value : Nat) (writeOk : Bool) :
    FileNodeState × Bool :=
  if writeOk then
    ({ lastWrittenValue := some value, writtenValues := fn.writtenValues ++ [value] }, true)
  else (fn, false)

/-! Refresh-control register bit layout.  Modelled from the spec: the
Panel_def.h carrying the k-prefixed offsets and masks is absent from the
sources at hand; the spec fixes bit 0 as the frame-insertion auto-mode
enable and two multi-bit sub-fields for the frame-insertion frame count
and the minimum refresh rate, the latter starting right above the frame
count bits (the source shifts the minimum-refresh-rate field right by
kPanelRefreshCtrlFrameInsertionFrameCountBits). -/

def kPanelRefreshCtrlFrameInsertionAutoModeOffset : Nat := 0
def kPanelRefreshCtrlFrameInsertionFrameCountOffset : Nat := 1
def kPanelRefreshCtrlFrameInsertionFrameCountBits : Nat := 16
def kPanelRefreshCtrlFrameInsertionFrameCountMask : Nat := 0xFFFE
def kPanelRefreshCtrlMinimumRefreshRateOffset : Nat := 16
def kPanelRefreshCtrlMinimumRefreshRateMask : Nat := 0xFFFF0000
def kPanelRefreshCtrlStateBitsMask : Nat := 0xFFFFFFFF

/-- uint32 bit clear, from Utils.h (data &= ~(1L << bit)). -/
def clearBit (data : Nat) (bit : Nat) : Nat :=
  data &&& ((4294967295 : Nat) ^^^ ((1 <<< bit) % 4294967296))

/-- uint32 bit set, from Utils.h (data |= (1L << bit)). -/
def setBit (data : Nat) (bit : Nat) : Nat :=
  (data ||| (1 <<< bit)) % 4294967296

/-- uint32 bit-field store, from Utils.h. -/
def setBitField (data value offset fieldMask : Nat) : Nat :=
  (data &&& ((4294967295 : Nat) ^^^ fieldMask)) ||| (((value <<< offset) &&& fieldMask))

/-! Controller constants from the missing header revision, modelled from
the spec; their concrete values never decide a claim below. -/

def kDefaultInvalidRefreshRate : Int := -1
def kDefaultMinimumRefreshRate : Int := 1
def kWaitForConfigTimeoutNs : Int := 100000000
def kDefaultSystemPresentTimeoutNs : Int := 500000000
def kDefaultAheadOfTimeNs : Int := 1000000

/-- SIGNAL_TIME_INVALID from the fence library. -/
def SIGNAL_TIME_INVALID : Int := -1

/-- SIGNAL_TIME_PENDING from the fence library (INT64_MAX). -/
def SIGNAL_TIME_PENDING : Int := 9223372036854775807

structure CtrlState where
  mState : VrrControllerState := .kDisable
  mPowerMode : Int := HWC_POWER_MODE_OFF
  mVrrConfigs : List (Int × VrrConfig) := []
  mVrrActiveConfig : Int := 0
  mValidRefreshRates : List (Int × List Int) := []
  mEventQueue : EventQueue := []
  mMinimumRefreshRate : Nat := 1
  mMaximumRefreshRateTimeoutNs : Int := 0
  mPendingMinimumRefreshRateRequest : Option Nat := none
  mMinimumRefreshRatePresentState : MinimumRefreshRatePresentStates := .kMinRefreshRateUnset
  mMinimumRefreshRateTimeoutEvent : Option TimedEventInfo := none
  mPresentTimeoutController : PresentTimeoutControllerType := .kSoftware
  mDefaultPresentTimeoutController : PresentTimeoutControllerType := .kSoftware
  mFileNode : FileNodeState := {}
  mVariableRefreshRateStatistic : Option StatState := none
  mPendingCurrentPresentTime : Option PresentTimeInfo := none
  mPresentHistory : List PresentTimeInfo := []
  mVsyncHistory : List VsyncEventInfo := []
  mLastPresentFence : Option Int := none
  mLastRefreshRate : Int := 0
  mLastExpectedPresentTimeNs : Int := 0
  mVendorPresentTimeoutOverride : Option PresentTimeoutSettings := none
  mVendorBaseTimeNs : Int := 0
  mRefreshRateCalculatorEnabled : Bool := false
  hasRefreshRateCalculator : Bool := false
  hasFrameRateReporter : Bool := false
  hasPresentTimeoutEventHandler : Bool := false
  refreshRateChangeLog : List Int := []
  refreshRateDebugLog : List (Int × Int) := []
  calculatorFeedLog : List (Int × Int) := []
  frameRateReporterFeedLog : List (Int × Int) := []
deriving Repr, DecidableEq

/-- External readings consumed by the controller operations. -/
structure CtrlEnv where
  nowSteadyNs : Int := 0
  bootClockOffsetNs : Int := 0
  brightnessMode : Int := kNormalBrightnessMode
  writeOk : Bool := true
  hasDisplay : Bool := true
  isVrrApiSupported : Bool := true
  presentFrameFlag : Int := 0
  vendorPresentTimeoutNs : Int := 0
  lastFenceSignalTimeNs : Int → Int := fun _ => SIGNAL_TIME_INVALID

/-- steadyClockTimeToBootClockTimeNs, the affine clock conversion. -/
def steadyToBoot (env : CtrlEnv) (steadyNs : Int) : Int :=
  steadyNs + env.bootClockOffsetNs

/-- Read of mVrrConfigs[mVrrActiveConfig]; the active id is present in
the table in every reachable state, so the default only pads totality. -/
def activeConfig (s : CtrlState) : VrrConfig :=
  ((s.mVrrConfigs.find? (fun e => e.1 == s.mVrrActiveConfig)).map (fun e => e.2)).getD
    { vsyncPeriodNs := 0, minFrameIntervalNs := 0, isFullySupported := false,
      notifyExpectedPresentConfig := none }

/-- Read of mValidRefreshRates[mVrrActiveConfig]. -/
def activeValidRefreshRates (s : CtrlState) : List Int :=
  ((s.mValidRefreshRates.find? (fun e => e.1 == s.mVrrActiveConfig)).map
    (fun e => e.2)).getD []

/-- getCurrentRefreshControlStateLocked: last cached refresh-control
value masked to the state bits, or 0 when nothing was written yet. -/
def getCurrentRefreshControlStateLocked (s : CtrlState) : Nat :=
  match s.mFileNode.lastWrittenValue with
  | some v => v &&& kPanelRefreshCtrlStateBitsMask
  | none => 0

/-- Modelled from the spec: isMinimumRefreshRateActive is an inline
helper of the missing header; the sub-state machine is active exactly
when the requested minimum refresh rate exceeds 1. -/
def isMinimumRefreshRateActive (s : CtrlState) : Bool :=
  s.mMinimumRefreshRate > 1

/-- cancelPresentTimeoutHandlingLocked: drops both vendor rendering
timeout event classes and resets the pending vendor task bookkeeping
(the task-list reset is modelled from the spec as clearing the base
time, the schedule cursor being part of the missing header). -/
def cancelPresentTimeoutHandlingLocked (s : CtrlState) : CtrlState :=
  { s with
    mEventQueue :=
      dropEventLocked (dropEventLocked s.mEventQueue kVendorRenderingTimeoutInit)
        kVendorRenderingTimeoutPost
    mVendorBaseTimeNs := 0 }

/-- createMinimumRefreshRateTimeoutEventLocked: installs a fresh
relative-time TimedEvent whose functor drives the
maximum-to-minimum settle steps (the closure itself runs at dispatch
time and is not part of this state). -/
def createMinimumRefreshRateTimeoutEventLocked (s : CtrlState) : CtrlState :=
  { s with mMinimumRefreshRateTimeoutEvent := some {} }

/-- convertToValidRefreshRate from VariableRefreshRateController.cpp:
std::lower_bound over the sorted valid-rate list, falling back to the
frequency of the minimum frame interval when no element is >= the
request. -/
def convertToValidRefreshRate (s : CtrlState) (refreshRate : Int) : Int :=
  match (activeValidRefreshRates s).find? (fun r => refreshRate <= r) with
  | some r => r
  | none => durationNsToFreq (activeConfig s).minFrameIntervalNs

/-- reportRefreshRateIndicator: forwards the last refresh rate to the
debug callback; the legacy API carries the rate as a vsync period with
no refresh period, the VRR API carries (vsync period, refresh period). -/
def reportRefreshRateIndicator (env : CtrlEnv) (s : CtrlState) : CtrlState :=
  if s.mRefreshRateCalculatorEnabled then
    if !env.isVrrApiSupported then
      { s with refreshRateDebugLog :=
          s.refreshRateDebugLog ++ [(freqToDurationNs s.mLastRefreshRate, 0)] }
    else
      { s with refreshRateDebugLog :=
          s.refreshRateDebugLog ++
            [((activeConfig s).vsyncPeriodNs, freqToDurationNs s.mLastRefreshRate)] }
  else s

/-- onRefreshRateChangedInternal from VariableRefreshRateController.cpp. -/
def onRefreshRateChangedInternal (env : CtrlEnv) (s : CtrlState) (refreshRate : Int) :
    CtrlState :=
  if !env.hasDisplay then s
  else
    let rate1 := if refreshRate == kDefaultInvalidRefreshRate then kDefaultMinimumRefreshRate
                 else refreshRate
    let rate2 := convertToValidRefreshRate s rate1
    if s.mLastRefreshRate == rate2 then s
    else
      let s1 := { s with
        mLastRefreshRate := rate2
        refreshRateChangeLog := s.refreshRateChangeLog ++ [rate2] }
      reportRefreshRateIndicator env s1

/-- Feed setFixedRefreshRate into the statistics member when present. -/
def feedStatSetFixedRefreshRate (env : CtrlEnv) (s : CtrlState) (rate : Int) : CtrlState :=
  match s.mVariableRefreshRateStatistic with
  | none => s
  | some st =>
    { s with mVariableRefreshRateStatistic :=
        (some (setFixedRefreshRate st rate (steadyToBoot env env.nowSteadyNs))) }

/-- setFixedRefreshRateRangeWorker from VariableRefreshRateController.cpp. -/
def setFixedRefreshRateRangeWorker (env : CtrlEnv) (s : CtrlState) : CtrlState × Int :=
  let command := getCurrentRefreshControlStateLocked s
  if isMinimumRefreshRateActive s then
    let s1 := cancelPresentTimeoutHandlingLocked s
    let command1 := setBit command kPanelRefreshCtrlFrameInsertionAutoModeOffset
    let command2 := setBitField command1 s1.mMinimumRefreshRate
      kPanelRefreshCtrlMinimumRefreshRateOffset kPanelRefreshCtrlMinimumRefreshRateMask
    let s2 := feedStatSetFixedRefreshRate env s1 (s1.mMinimumRefreshRate : Int)
    let s3 := { s2 with mMinimumRefreshRatePresentState := .kAtMinimumRefreshRate }
    let s4 := createMinimumRefreshRateTimeoutEventLocked s3
    let wr := fileNodeWriteValue s4.mFileNode command2 env.writeOk
    let s5 := { s4 with mFileNode := wr.1 }
    if !wr.2 then (s5, -1)
    else
      let s6 := { s5 with mPresentTimeoutController := .kHardware }
      let s7 := onRefreshRateChangedInternal env s6 (s6.mMinimumRefreshRate : Int)
      (s7, 1)
  else
    let s1 := { s with mPresentTimeoutController := s.mDefaultPresentTimeoutController }
    let afterWrite :=
      if s1.mPresentTimeoutController == PresentTimeoutControllerType.kSoftware then
        let command1 := clearBit command kPanelRefreshCtrlFrameInsertionAutoModeOffset
        let command2 := setBitField command1 1 kPanelRefreshCtrlMinimumRefreshRateOffset
          kPanelRefreshCtrlMinimumRefreshRateMask
        let wr := fileNodeWriteValue s1.mFileNode command2 env.writeOk
        ({ s1 with mFileNode := wr.1 }, wr.2)
      else (s1, true)
    if !afterWrite.2 then (afterWrite.1, -1)
    else
      let s2 := feedStatSetFixedRefreshRate env afterWrite.1 0
      let s3 := { s2 with mMaximumRefreshRateTimeoutNs := 0 }
      let s4 := onRefreshRateChangedInternal env s3 1
      let s5 := { s4 with
        mMinimumRefreshRateTimeoutEvent := none
        mMinimumRefreshRatePresentState := .kMinRefreshRateUnset }
      (s5, 1)

/-- setFixedRefreshRateRange from VariableRefreshRateController.cpp: a
requested minimum of 0 is normalized to 1 before any further logic. -/
def setFixedRefreshRateRange (env : CtrlEnv) (s : CtrlState)
    (minimumRefreshRate : Nat) (minLockTimeForPeakRefreshRate : Int) : CtrlState × Int :=
  if s.mPowerMode == HWC_POWER_MODE_OFF then (s, 0)
  else
    let minRate := if minimumRefreshRate == 0 then 1 else minimumRefreshRate
    let s1 := { s with mMaximumRefreshRateTimeoutNs := minLockTimeForPeakRefreshRate }
    if s1.mPendingMinimumRefreshRateRequest == some minRate then (s1, 0)
    else
      let s2 := { s1 with
        mPendingMinimumRefreshRateRequest := none
        mEventQueue := dropEventLocked s1.mEventQueue kMinimumRefreshRateControlEventMask }
      if minRate == s2.mMinimumRefreshRate then (s2, 0)
      else
        if minRate == 1
            || durationNsToFreq (activeConfig s2).vsyncPeriodNs
                == durationNsToFreq (activeConfig s2).minFrameIntervalNs then
          let s3 := { s2 with mMinimumRefreshRate := minRate }
          setFixedRefreshRateRangeWorker env s3
        else
          let s3 := { s2 with
            mPendingMinimumRefreshRateRequest := some minRate
            mEventQueue := postEvent s2.mEventQueue kMinimumRefreshRateWaitForConfigTimeout
              (env.nowSteadyNs + kWaitForConfigTimeoutNs) }
          (s3, 0)

/-- setVrrConfigurations from VariableRefreshRateController.cpp: the
incoming table is scanned in order; a fully supported configuration
without a notifyExpectedPresentConfig aborts the call before anything is
stored, otherwise the valid-refresh-rate lattice is derived per
configuration and both tables are replaced wholesale. -/
def buildValidRefreshRates : List (Int × VrrConfig) → Option (List (Int × List Int))
  | [] => some []
  | (id, config) :: rest =>
    if config.isFullySupported && config.notifyExpectedPresentConfig == none then none
    else
      match buildValidRefreshRates rest with
      | none => none
      | some tail => some ((id, generateValidRefreshRates config) :: tail)

/-- setVrrConfigurations (see buildValidRefreshRates). -/
def setVrrConfigurations (s : CtrlState) (configs : List (Int × VrrConfig)) : CtrlState :=
  match buildValidRefreshRates configs with
  | none => s
  | some valid => { s with mVrrConfigs := configs, mValidRefreshRates := valid }

/-- setExpectedPresentTime from VariableRefreshRateController.cpp. -/
def setExpectedPresentTime (s : CtrlState) (timestampNanos : Int)
    (frameIntervalNs : Int) : CtrlState :=
  let s1 := { s with
    mLastExpectedPresentTimeNs := timestampNanos
    mEventQueue := dropEventLocked s.mEventQueue kSystemRenderingTimeout }
  let s2 := cancelPresentTimeoutHandlingLocked s1
  { s2 with
    mVendorBaseTimeNs := timestampNanos
    mPendingCurrentPresentTime :=
      some { config := s2.mVrrActiveConfig, mTime := timestampNanos,
             mFrameIntervalNs := frameIntervalNs } }

/-- shouldHandleVendorRenderingTimeout. -/
def shouldHandleVendorRenderingTimeout (s : CtrlState) : Bool :=
  s.mPresentTimeoutController == PresentTimeoutControllerType.kSoftware
    && (s.mVendorPresentTimeoutOverride == none
        || (s.mVendorPresentTimeoutOverride.map (fun o => o.mSchedule.length)).getD 0 > 0)
    && s.mPowerMode == HWC_POWER_MODE_NORMAL

/-- updateVsyncHistory: retires the previous present fence's signal time
into the vsync history; the kernel fence query is an environment oracle
and close failures are not modelled. -/
def updateVsyncHistory (env : CtrlEnv) (s : CtrlState) : CtrlState :=
  match s.mLastPresentFence with
  | none => s
  | some fence =>
    let s1 := { s with mLastPresentFence := none }
    let lastSignalTime := env.lastFenceSignalTimeNs fence
    if lastSignalTime == SIGNAL_TIME_PENDING || lastSignalTime == SIGNAL_TIME_INVALID then s1
    else
      { s1 with mVsyncHistory :=
          s1.mVsyncHistory ++ [{ mType := .kReleaseFence, mTime := lastSignalTime }] }

/-- The minimum/maximum refresh-rate promotion block of onPresent (the
branch taken while a minimum refresh rate with a peak lock duration is
active and no configuration change is pending). -/
def onPresentMinRateBlock (env : CtrlEnv) (s : CtrlState) (pending : PresentTimeInfo) :
    CtrlState :=
  let maxFrameRate := durationNsToFreq (activeConfig s).minFrameIntervalNs
  if maxFrameRate == (s.mMinimumRefreshRate : Int) then s
  else
    match s.mMinimumRefreshRatePresentState with
    | .kAtMinimumRefreshRate =>
      let command := getCurrentRefreshControlStateLocked s
      let command1 := setBit command kPanelRefreshCtrlFrameInsertionAutoModeOffset
      let command2 := setBitField command1 maxFrameRate.toNat
        kPanelRefreshCtrlMinimumRefreshRateOffset kPanelRefreshCtrlMinimumRefreshRateMask
      let wr := fileNodeWriteValue s.mFileNode command2 env.writeOk
      let s1 := { s with mFileNode := wr.1 }
      if !wr.2 then s1
      else
        let s2 := { s1 with mMinimumRefreshRatePresentState := .kAtMaximumRefreshRate }
        let s3 := onRefreshRateChangedInternal env s2 maxFrameRate
        let ev : TimedEventInfo :=
          { mIsRelativeTime := false
            mWhenNs := pending.mTime + s3.mMaximumRefreshRateTimeoutNs }
        { s3 with
          mMinimumRefreshRateTimeoutEvent := some ev
          mEventQueue := s3.mEventQueue ++
            [{ mEventType := kMinLockTimeForPeakRefreshRate, mWhenNs := ev.mWhenNs,
               hasFunctor := true }] }
    | .kTransitionToMinimumRefreshRate =>
      let s1 := { s with
        mEventQueue := dropEventLocked s.mEventQueue kMinLockTimeForPeakRefreshRate }
      let delayNs := nanoDen / (s1.mMinimumRefreshRate : Int) + kMillisecondToNanoSecond
      let ev : TimedEventInfo := { mIsRelativeTime := false, mWhenNs := pending.mTime + delayNs }
      { s1 with
        mMinimumRefreshRateTimeoutEvent := some ev
        mEventQueue := s1.mEventQueue ++
          [{ mEventType := kMinLockTimeForPeakRefreshRate, mWhenNs := ev.mWhenNs,
             hasFunctor := true }] }
    | _ => s

/-- onPresent(fence) from VariableRefreshRateController.cpp. -/
def onPresent (env : CtrlEnv) (s : CtrlState) (fence : Int) : CtrlState :=
  if fence < 0 then s
  else
    match s.mPendingCurrentPresentTime with
    | none => s
    | some pending =>
      let s1 :=
        if s.hasRefreshRateCalculator then
          { s with calculatorFeedLog :=
              s.calculatorFeedLog ++ [(pending.mTime, env.presentFrameFlag)] }
        else s
      let s2 :=
        if s1.hasFrameRateReporter then
          { s1 with frameRateReporterFeedLog :=
              s1.frameRateReporterFeedLog ++ [(pending.mTime, 0)] }
        else s1
      let s3 :=
        match s2.mVariableRefreshRateStatistic with
        | none => s2
        | some st =>
          { s2 with mVariableRefreshRateStatistic :=
              (some (statOnPresent st env.brightnessMode (steadyToBoot env pending.mTime)
                env.presentFrameFlag)) }
      let s4 := { s3 with mPresentHistory := s3.mPresentHistory ++ [pending] }
      if s4.mState == VrrControllerState.kDisable then s4
      else
        let s5 :=
          if s4.mState == VrrControllerState.kHibernate then
            { s4 with
              mState := .kRendering
              mEventQueue := dropEventLocked s4.mEventQueue kHibernateTimeout }
          else s4
        if s5.mMaximumRefreshRateTimeoutNs > 0 && s5.mMinimumRefreshRate > 1
            && s5.mPendingMinimumRefreshRateRequest == none then
          onPresentMinRateBlock env s5 pending
        else
          let s6 := updateVsyncHistory env s5
          let dupFence := fence
          let s7 := { s6 with mLastPresentFence := some dupFence }
          let timeoutNs :=
            if (activeConfig s7).isFullySupported then
              env.nowSteadyNs +
                (((activeConfig s7).notifyExpectedPresentConfig.map
                  (fun c => c.TimeoutNs)).getD 0)
            else kDefaultSystemPresentTimeoutNs
          let s8 := { s7 with mEventQueue :=
            (postEvent s7.mEventQueue kSystemRenderingTimeout (env.nowSteadyNs + timeoutNs)) }
          let s9 :=
            if shouldHandleVendorRenderingTimeout s8 then
              let firstTimeOutNs :=
                match s8.mVendorPresentTimeoutOverride with
                | some o => o.mTimeoutNs
                | none => env.vendorPresentTimeoutNs
              let s8a := { s8 with mVendorBaseTimeNs := s8.mVendorBaseTimeNs + firstTimeOutNs }
              let firstTimeOutNs1 := firstTimeOutNs - kDefaultAheadOfTimeNs
              if firstTimeOutNs1 >= 0 then
                { s8a with mEventQueue := (postEvent s8a.mEventQueue
                    kVendorRenderingTimeoutInit (pending.mTime + firstTimeOutNs1)) }
              else s8a
            else s8
          { s9 with mPendingCurrentPresentTime := none }

/-! ## Derived observables and concrete scenarios used by the analysis -/

/-- Total accumulated time over all records of a statistics map. -/
def sumAccumulatedTimeNs (m : DisplayRefreshStatistics) : Int :=
  (m.map (fun e => e.2.mAccumulatedTimeNs)).sum

/-- The statistics state right after steps (b) and (d) of
onRefreshInternal: the idle flush charged to the previous profile and
the display status refreshed. -/
def postFlushState (s : StatState) (bm t : Int) : StatState :=
  updateCurrentDisplayStatus (updateIdleStats s t t) bm

/-- The vsync distance onRefreshInternal computes for a refresh at t:
the rounded ratio of the elapsed time since the (post-flush) last
refresh to the TE interval. -/
def recordedVsync (s : StatState) (bm t : Int) : Int :=
  roundDivide (t - (postFlushState s bm t).mLastRefreshTimeInBootClockNs.getD 0)
    (postFlushState s bm t).mTeIntervalNs

/-- The profile key under which onRefreshInternal records a non-doze
refresh at t from the given source. -/
def recordedKey (s : StatState) (bm t src : Int) : DisplayRefreshProfile :=
  { (postFlushState s bm t).mDisplayRefreshProfile with
    mNumVsync := max 1 (min (postFlushState s bm t).mTeFrequency (recordedVsync s bm t))
    mRefreshSource := src }

/-- One recorded refresh applied to a record: count up by one,
accumulated time up by TE interval times the vsync count, stamped at t. -/
def bumpRecord (old : DisplayRefreshRecord) (ti vc t : Int) : DisplayRefreshRecord :=
  { old with
    mCount := old.mCount + 1
    mAccumulatedTimeNs := old.mAccumulatedTimeNs + ti * vc
    mLastTimeStampInBootClockNs := t
    mUpdated := true }

/-- Run a sequence of presents (flag 0) through the statistics. -/
def runPresents (bm : Int) : StatState → List Int → StatState
  | s, [] => s
  | s, t :: ts => runPresents bm (statOnPresent s bm t 0) ts

/-- Side conditions of the conservation analysis, evaluated along the
run: every present lands at or after the tracked last refresh and the
rounded vsync distance never exceeds the TE frequency (so no idle flush
and no high clamp fires). -/
def presentsOk (bm : Int) : StatState → List Int → Bool
  | _, [] => true
  | s, t :: ts =>
    let l := s.mLastRefreshTimeInBootClockNs.getD 0
    decide (l <= t) && decide (roundDivide (t - l) s.mTeIntervalNs <= s.mTeFrequency)
      && presentsOk bm (statOnPresent s bm t 0) ts

/-- A 120 Hz panel configuration whose minimum frame interval (18 ms) is
not an integer multiple of the vsync period (8333333 ns), exercising the
rounding of the minimum vsync count. -/
def cfgLat : VrrConfig :=
  { vsyncPeriodNs := 8333333
    minFrameIntervalNs := 18000000
    isFullySupported := false
    notifyExpectedPresentConfig := none }

/-- A 240 Hz fully supported configuration with a 120 Hz minimum frame
interval (the vsync period divides the frame interval exactly). -/
def cfgEven : VrrConfig :=
  { vsyncPeriodNs := 4166666
    minFrameIntervalNs := 8333332
    isFullySupported := true
    notifyExpectedPresentConfig := some { TimeoutNs := 16666666, HeadsUpNs := 1000000 } }

/-- A configuration claiming full support but missing its
notifyExpectedPresentConfig, rejected by setVrrConfigurations. -/
def cfgBad : VrrConfig :=
  { vsyncPeriodNs := 4166666
    minFrameIntervalNs := 8333332
    isFullySupported := true
    notifyExpectedPresentConfig := none }

/-- Controller state holding cfgLat as the active configuration with
its derived valid-refresh-rate list, as left by setVrrConfigurations. -/
def ctrlLat : CtrlState :=
  setVrrConfigurations { mVrrActiveConfig := 0 } [(0, cfgLat)]

/-- Boot-clock instant used by the concrete statistics scenarios. -/
def tBase : Int := 1000000000

/-- Statistics scenario: construction at tBase, power off to normal at
tBase, a baseline present 1000 ns later, and a recorded present one TE
interval after that. -/
def c2AfterInit : StatState := statInit 120 120 tBase

def c2AfterPowerOn : StatState := statOnPowerStateChange c2AfterInit 0 2 tBase

def c2AfterBaseline : StatState :=
  statOnPresent c2AfterPowerOn kNormalBrightnessMode (tBase + 1000) 0

def c2AfterPresent : StatState :=
  statOnPresent c2AfterBaseline kNormalBrightnessMode (tBase + 1000 + 8333333) 0

/-- First getUpdatedStatistics call, right after the last present. -/
def c2FirstCall : DisplayRefreshStatistics × StatState :=
  getUpdatedStatistics c2AfterPresent (tBase + 1000 + 8333333)

/-- Second getUpdatedStatistics call, immediately after the first with
no intervening present, non-present refresh or power event. -/
def c2SecondCall : DisplayRefreshStatistics × StatState :=
  getUpdatedStatistics c2FirstCall.2 (tBase + 1000 + 8333333)

/-- Doze scenario: power off to doze at tBase, a baseline non-present
refresh 1000 ns later. -/
def c4AfterDoze : StatState := statOnPowerStateChange c2AfterInit 0 1 tBase

def c4AfterBaseline : StatState :=
  statOnNonPresentRefresh c4AfterDoze kNormalBrightnessMode (tBase + 1000)
    kRefreshSourceFrameInsertion

/-- A further non-present refresh 1000 ns after the baseline, whose
rounded vsync distance is 0. -/
def c4AfterSecond : StatState :=
  statOnNonPresentRefresh c4AfterBaseline kNormalBrightnessMode (tBase + 2000)
    kRefreshSourceFrameInsertion

/-- Conservation scenario start: normal power mode on a 120 Hz panel,
idle baseline at tBase, statistics started at tBase, only the off
record present. -/
def c5Start : StatState :=
  { mMaxFrameRate := 120
    mMaxTeFrequency := 120
    mMinFrameIntervalNs := 8333333
    mTeFrequency := 120
    mTeIntervalNs := 8333333
    mLastRefreshTimeInBootClockNs := some tBase
    mDisplayRefreshProfile :=
      { mCurrentDisplayConfig :=
          { mActiveConfigId := 1, mPowerMode := HWC_POWER_MODE_NORMAL,
            mBrightnessMode := kNormalBrightnessMode }
        mNumVsync := 120
        mRefreshSource := kRefreshSourceActivePresent }
    mStatistics := [({}, {})]
    mStartStatisticTimeNs := tBase }

/-- Four presents spaced 11666666 ns (1.4 TE intervals) apart. -/
def c5Times : List Int :=
  [tBase + 11666666, tBase + 2 * 11666666, tBase + 3 * 11666666, tBase + 4 * 11666666]

def c5Final : StatState := runPresents kNormalBrightnessMode c5Start c5Times

/-! ## Helper lemmas -/

theorem roundDivide_nonneg (a b : Int) : 0 ≤ roundDivide a b := by
  unfold roundDivide
  split
  · exact le_refl 0
  · rename_i h
    simp only [Bool.or_eq_true, decide_eq_true_eq, not_or, not_lt, not_le] at h
    exact Int.ediv_nonneg (by omega) (by omega)

theorem mem_insertUnique {a x : Int} {l : List Int} :
    a ∈ insertUnique x l ↔ a = x ∨ a ∈ l := by
  induction l with
  | nil => simp [insertUnique]
  | cons y ys ih =>
    unfold insertUnique
    split
    · simp [List.mem_cons]
    · split
      · rename_i hxy
        subst hxy
        simp [List.mem_cons]
      · simp [List.mem_cons, ih]
        tauto

theorem sorted_insertUnique {x : Int} {l : List Int} (h : l.Sorted (· < ·)) :
    (insertUnique x l).Sorted (· < ·) := by
  induction l with
  | nil => simp [insertUnique]
  | cons y ys ih =>
    rw [List.sorted_cons] at h
    unfold insertUnique
    split
    · rename_i hxy
      rw [List.sorted_cons]
      refine ⟨?_, ?_⟩
      · intro b hb
        rcases List.mem_cons.mp hb with hb | hb
        · omega
        · have := h.1 b hb
          omega
      · rw [List.sorted_cons]
        exact h
    · split
      · rw [List.sorted_cons]
        exact h
      · rename_i hlt heq
        rw [List.sorted_cons]
        refine ⟨?_, ih h.2⟩
        intro b hb
        rcases mem_insertUnique.mp hb with hb | hb
        · omega
        · exact h.1 b hb

theorem insertUnique_ne_nil (x : Int) (l : List Int) : insertUnique x l ≠ [] := by
  cases l with
  | nil => simp [insertUnique]
  | cons y ys =>
    unfold insertUnique
    split
    · simp
    · split <;> simp

theorem mem_foldl_insertUnique (l : List Int) (init : List Int) (a : Int) :
    a ∈ l.foldl (fun acc r => insertUnique r acc) init ↔ a ∈ init ∨ a ∈ l := by
  induction l generalizing init with
  | nil => simp
  | cons x xs ih =>
    rw [List.foldl_cons, ih, mem_insertUnique]
    simp [List.mem_cons]
    tauto

theorem sorted_foldl_insertUnique (l : List Int) (init : List Int)
    (h : init.Sorted (· < ·)) :
    (l.foldl (fun acc r => insertUnique r acc) init).Sorted (· < ·) := by
  induction l generalizing init with
  | nil => exact h
  | cons x xs ih => exact ih _ (sorted_insertUnique h)

theorem foldl_insertUnique_ne_nil (l : List Int) (init : List Int) (h : init ≠ []) :
    l.foldl (fun acc r => insertUnique r acc) init ≠ [] := by
  induction l generalizing init with
  | nil => exact h
  | cons x xs ih => exact ih _ (insertUnique_ne_nil x init)

theorem mem_sortedUnique {l : List Int} {a : Int} : a ∈ sortedUnique l ↔ a ∈ l := by
  unfold sortedUnique
  rw [mem_foldl_insertUnique]
  simp

theorem sorted_sortedUnique (l : List Int) : (sortedUnique l).Sorted (· < ·) :=
  sorted_foldl_insertUnique l [] (by simp)

theorem sortedUnique_ne_nil {l : List Int} (h : l ≠ []) : sortedUnique l ≠ [] := by
  cases l with
  | nil => exact absurd rfl h
  | cons x xs =>
    unfold sortedUnique
    rw [List.foldl_cons]
    exact foldl_insertUnique_ne_nil xs _ (insertUnique_ne_nil x [])

theorem mem_intRangeList {lo hi n : Int} : n ∈ intRangeList lo hi ↔ lo ≤ n ∧ n ≤ hi := by
  unfold intRangeList
  rw [List.mem_map]
  constructor
  · rintro ⟨k, hk, rfl⟩
    rw [List.mem_range] at hk
    simp only [Int.ofNat_eq_natCast]
    omega
  · rintro ⟨h1, h2⟩
    refine ⟨(n - lo).toNat, ?_, ?_⟩
    · rw [List.mem_range]
      omega
    · simp only [Int.ofNat_eq_natCast]
      omega

theorem intRangeList_ne_nil {lo hi : Int} (h : lo ≤ hi) : intRangeList lo hi ≠ [] := by
  intro hnil
  have hmem : lo ∈ intRangeList lo hi := mem_intRangeList.mpr ⟨le_refl lo, h⟩
  rw [hnil] at hmem
  exact List.not_mem_nil lo hmem

/-! ## C10: roundDivide totality and guard semantics -/

/-- C10: for all integer inputs, roundDivide returns 0 when the dividend
is negative or the divisor is non-positive, and otherwise returns
(dividend + divisor / 2) / divisor in integer arithmetic; the
frequency/duration conversions durationNsToFreq and freqToDurationNs are
the same guarded rounded division applied to a fixed non-negative
numerator, hence total with no division by zero. -/
theorem roundDivide_total_spec (divident divisor : Int) :
    ((divident < 0 ∨ divisor ≤ 0) → roundDivide divident divisor = 0)
    ∧ (0 ≤ divident → 0 < divisor →
        roundDivide divident divisor = (divident + divisor / 2) / divisor)
    ∧ durationNsToFreq divisor = roundDivide nanoDen divisor
    ∧ freqToDurationNs divisor = roundDivide nanoDen divisor := by
  refine ⟨?_, ?_, rfl, rfl⟩
  · intro h
    unfold roundDivide
    rw [if_pos]
    simp only [Bool.or_eq_true, decide_eq_true_eq]
    exact h
  · intro h1 h2
    unfold roundDivide
    rw [if_neg]
    simp only [Bool.or_eq_true, decide_eq_true_eq]
    omega

/-- Witness for C10 at concrete inputs. -/
theorem roundDivide_total_spec_witness :
    roundDivide (-3) 5 = 0 ∧ roundDivide 7 2 = (7 + 2 / 2) / 2 :=
  ⟨(roundDivide_total_spec (-3) 5).1 (Or.inl (by decide)),
   (roundDivide_total_spec 7 2).2.1 (by decide) (by decide)⟩

/-! ## C1: the valid-refresh-rate lattice -/

set_option maxRecDepth 100000 in
/-- C1 counterexample: for the configuration cfgLat (vsync period
8333333 ns, minimum frame interval 18000000 ns) the entry 60 of
generateValidRefreshRates has no vsync count n between
ceil(F/P) = 3 (established by the middle conjunct) and TE = 120 with
60 = round(TE/n): the loop starts at round(F/P) = 2, not ceil(F/P). -/
theorem generateValidRefreshRates_counterexample :
    (60 : Int) ∈ generateValidRefreshRates cfgLat
      ∧ (cfgLat.vsyncPeriodNs * 2 < cfgLat.minFrameIntervalNs
          ∧ cfgLat.minFrameIntervalNs ≤ cfgLat.vsyncPeriodNs * 3)
      ∧ ¬ ∃ n : Int, 3 ≤ n ∧ n ≤ durationNsToFreq cfgLat.vsyncPeriodNs
          ∧ (60 : Int) = roundDivide (durationNsToFreq cfgLat.vsyncPeriodNs) n := by
  refine ⟨by decide, by decide, ?_⟩
  rintro ⟨n, h3, h120, heq⟩
  have hte : durationNsToFreq cfgLat.vsyncPeriodNs = 120 := by decide
  rw [hte] at h120 heq
  have hall : ∀ m ∈ intRangeList 3 120, roundDivide 120 m ≠ 60 := by decide
  exact hall n (mem_intRangeList.mpr ⟨h3, h120⟩) heq.symm

/-- C1 (amended: the vsync counts run from round(F/P), the value of
roundDivide(F, P), rather than ceil(F/P)): for a configuration with
vsync period P > 0 and minimum frame interval F >= 0,
generateValidRefreshRates is sorted and duplicate-free, every entry r
equals round(TE/n) for some vsync count n with
round(F/P) <= n <= TE = round(10^9/P), and the list is non-empty
whenever F <= TE * P. -/
theorem generateValidRefreshRates_lattice (config : VrrConfig)
    (hP : 0 < config.vsyncPeriodNs) (hF : 0 ≤ config.minFrameIntervalNs) :
    ((generateValidRefreshRates config).Sorted (· < ·)
        ∧ (generateValidRefreshRates config).Nodup)
      ∧ (∀ r ∈ generateValidRefreshRates config,
          ∃ n : Int,
            roundDivide config.minFrameIntervalNs config.vsyncPeriodNs ≤ n
              ∧ n ≤ durationNsToFreq config.vsyncPeriodNs
              ∧ r = roundDivide (durationNsToFreq config.vsyncPeriodNs) n)
      ∧ (config.minFrameIntervalNs
            ≤ durationNsToFreq config.vsyncPeriodNs * config.vsyncPeriodNs →
          generateValidRefreshRates config ≠ []) := by
  have hsorted : (generateValidRefreshRates config).Sorted (· < ·) := by
    unfold generateValidRefreshRates
    exact sorted_sortedUnique _
  refine ⟨⟨hsorted, hsorted.nodup⟩, ?_, ?_⟩
  · intro r hr
    unfold generateValidRefreshRates at hr
    rw [mem_sortedUnique] at hr
    rcases List.mem_map.mp hr with ⟨n, hn, rfl⟩
    rcases mem_intRangeList.mp hn with ⟨h1, h2⟩
    exact ⟨n, h1, h2, rfl⟩
  · intro hle
    have hminV :
        roundDivide config.minFrameIntervalNs config.vsyncPeriodNs
          ≤ durationNsToFreq config.vsyncPeriodNs := by
      have h0 : roundDivide config.minFrameIntervalNs config.vsyncPeriodNs
          = (config.minFrameIntervalNs + config.vsyncPeriodNs / 2)
              / config.vsyncPeriodNs := by
        unfold roundDivide
        rw [if_neg]
        simp only [Bool.or_eq_true, decide_eq_true_eq]
        omega
      rw [h0]
      have h2 : config.minFrameIntervalNs + config.vsyncPeriodNs / 2
          < (durationNsToFreq config.vsyncPeriodNs + 1) * config.vsyncPeriodNs := by
        have hh : (durationNsToFreq config.vsyncPeriodNs + 1) * config.vsyncPeriodNs
            = durationNsToFreq config.vsyncPeriodNs * config.vsyncPeriodNs
              + config.vsyncPeriodNs := by ring
        omega
      have h3 := (Int.ediv_lt_iff_lt_mul hP).mpr h2
      omega
    unfold generateValidRefreshRates
    apply sortedUnique_ne_nil
    simp only [ne_eq, List.map_eq_nil_iff]
    exact intRangeList_ne_nil hminV

/-- Witness for C1 at the concrete configuration cfgEven. -/
theorem generateValidRefreshRates_lattice_witness :
    (0 : Int) < cfgEven.vsyncPeriodNs ∧ (0 : Int) ≤ cfgEven.minFrameIntervalNs
      ∧ (((generateValidRefreshRates cfgEven).Sorted (· < ·)
            ∧ (generateValidRefreshRates cfgEven).Nodup)
          ∧ (∀ r ∈ generateValidRefreshRates cfgEven,
              ∃ n : Int,
                roundDivide cfgEven.minFrameIntervalNs cfgEven.vsyncPeriodNs ≤ n
                  ∧ n ≤ durationNsToFreq cfgEven.vsyncPeriodNs
                  ∧ r = roundDivide (durationNsToFreq cfgEven.vsyncPeriodNs) n)
          ∧ (cfgEven.minFrameIntervalNs
                ≤ durationNsToFreq cfgEven.vsyncPeriodNs * cfgEven.vsyncPeriodNs →
              generateValidRefreshRates cfgEven ≠ [])) :=
  ⟨by decide, by decide, generateValidRefreshRates_lattice cfgEven (by decide) (by decide)⟩

/-! ## C3: lower-bound rate mapping -/

theorem find?_ge_sorted_some {l : List Int} {t v : Int} (hs : l.Sorted (· < ·))
    (h : l.find? (fun r => t ≤ r) = some v) :
    v ∈ l ∧ t ≤ v ∧ ∀ r ∈ l, t ≤ r → v ≤ r := by
  induction l with
  | nil => simp [List.find?] at h
  | cons x xs ih =>
    rw [List.sorted_cons] at hs
    by_cases hx : t ≤ x
    · rw [List.find?_cons_of_pos _ (by simpa using hx)] at h
      have hvx : v = x := by
        injection h with h
        exact h.symm
      subst hvx
      refine ⟨List.mem_cons_self v xs, hx, ?_⟩
      intro r hr _
      rcases List.mem_cons.mp hr with rfl | hr
      · exact le_refl r
      · exact le_of_lt (hs.1 r hr)
    · rw [List.find?_cons_of_neg _ (by simpa using hx)] at h
      rcases ih hs.2 h with ⟨hmem, hle, hmin⟩
      refine ⟨List.mem_cons_of_mem x hmem, hle, ?_⟩
      intro r hr htr
      rcases List.mem_cons.mp hr with rfl | hr
      · exact absurd htr hx
      · exact hmin r hr htr

/-- C3 (amended: the lower-bound search result is always an element of
the valid list and is the least element at or above the target; the
fallback when no element is at or above the target is the frequency of
the configuration's minimum frame interval, which need not itself be an
element of the list): convertToValidRefreshRate over a sorted valid
list. -/
theorem convertToValidRefreshRate_spec (s : CtrlState) (t : Int)
    (hs : (activeValidRefreshRates s).Sorted (· < ·)) :
    ((∃ r ∈ activeValidRefreshRates s, t ≤ r) →
        convertToValidRefreshRate s t ∈ activeValidRefreshRates s
          ∧ t ≤ convertToValidRefreshRate s t
          ∧ ∀ r ∈ activeValidRefreshRates s, t ≤ r → convertToValidRefreshRate s t ≤ r)
      ∧ ((∀ r ∈ activeValidRefreshRates s, r < t) →
          convertToValidRefreshRate s t
            = durationNsToFreq (activeConfig s).minFrameIntervalNs) := by
  unfold convertToValidRefreshRate
  cases hfind : (activeValidRefreshRates s).find? (fun r => t ≤ r) with
  | none =>
    constructor
    · rintro ⟨r, hr, htr⟩
      have := List.find?_eq_none.mp hfind r hr
      simp at this
      omega
    · intro _
      rfl
  | some v =>
    have hv := find?_ge_sorted_some hs hfind
    constructor
    · intro _
      exact hv
    · intro hall
      have := hall v hv.1
      omega

set_option maxRecDepth 100000 in
/-- C3 counterexample: with cfgLat active every valid rate is below the
target 100, and the fallback value 56 = durationNsToFreq(18000000) that
convertToValidRefreshRate returns is not an element of the valid list. -/
theorem convertToValidRefreshRate_counterexample :
    convertToValidRefreshRate ctrlLat 100 = 56
      ∧ (56 : Int) ∉ activeValidRefreshRates ctrlLat
      ∧ ∀ r ∈ activeValidRefreshRates ctrlLat, r < 100 := by
  refine ⟨by decide, by decide, by decide⟩

set_option maxRecDepth 100000 in
/-- Witness for C3 at the concrete state ctrlLat and target 50. -/
theorem convertToValidRefreshRate_spec_witness :
    (activeValidRefreshRates ctrlLat).Sorted (· < ·)
      ∧ ((∃ r ∈ activeValidRefreshRates ctrlLat, (50 : Int) ≤ r) →
          convertToValidRefreshRate ctrlLat 50 ∈ activeValidRefreshRates ctrlLat
            ∧ (50 : Int) ≤ convertToValidRefreshRate ctrlLat 50
            ∧ ∀ r ∈ activeValidRefreshRates ctrlLat, (50 : Int) ≤ r →
                convertToValidRefreshRate ctrlLat 50 ≤ r) :=
  ⟨by decide, fun h => (convertToValidRefreshRate_spec ctrlLat 50 (by decide)).1 h⟩

/-! ## C6: configuration-table replacement and rejection -/

theorem buildValidRefreshRates_eq_none {configs : List (Int × VrrConfig)}
    (h : ∃ c ∈ configs, c.2.isFullySupported = true
        ∧ c.2.notifyExpectedPresentConfig = none) :
    buildValidRefreshRates configs = none := by
  induction configs with
  | nil => simp at h
  | cons c rest ih =>
    unfold buildValidRefreshRates
    rcases h with ⟨d, hd, hfull, hnone⟩
    rcases List.mem_cons.mp hd with rfl | hd
    · rw [if_pos]
      simp [hfull, hnone]
    · split
      · rfl
      · rw [ih ⟨d, hd, hfull, hnone⟩]

theorem buildValidRefreshRates_eq_some {configs : List (Int × VrrConfig)}
    (h : ∀ c ∈ configs, c.2.isFullySupported = true →
        c.2.notifyExpectedPresentConfig ≠ none) :
    buildValidRefreshRates configs
      = some (configs.map (fun c => (c.1, generateValidRefreshRates c.2))) := by
  induction configs with
  | nil => rfl
  | cons c rest ih =>
    unfold buildValidRefreshRates
    rw [if_neg, ih]
    · rfl
    · intro d hd hfull
      exact h d (List.mem_cons_of_mem c hd) hfull
    · intro hbad
      rw [Bool.and_eq_true, beq_iff_eq] at hbad
      exact h c (List.mem_cons_self c rest) hbad.1 hbad.2

/-- C6: if any configuration passed to setVrrConfigurations claims full
support but lacks a notifyExpectedPresentConfig, the call leaves the
controller state entirely unchanged; when every fully supported
configuration carries one, the stored configuration table and the
valid-refresh-rate table are both replaced in full. -/
theorem setVrrConfigurations_spec (s : CtrlState) (configs : List (Int × VrrConfig)) :
    ((∃ c ∈ configs, c.2.isFullySupported = true
          ∧ c.2.notifyExpectedPresentConfig = none) →
        setVrrConfigurations s configs = s)
      ∧ ((∀ c ∈ configs, c.2.isFullySupported = true →
            c.2.notifyExpectedPresentConfig ≠ none) →
          (setVrrConfigurations s configs).mVrrConfigs = configs
            ∧ (setVrrConfigurations s configs).mValidRefreshRates
                = configs.map (fun c => (c.1, generateValidRefreshRates c.2))) := by
  constructor
  · intro h
    unfold setVrrConfigurations
    rw [buildValidRefreshRates_eq_none h]
  · intro h
    unfold setVrrConfigurations
    rw [buildValidRefreshRates_eq_some h]
    exact ⟨rfl, rfl⟩

set_option maxRecDepth 100000 in
/-- Witness for C6: a bad table is rejected without mutation, a good
table replaces both stored tables. -/
theorem setVrrConfigurations_spec_witness :
    setVrrConfigurations ctrlLat [(0, cfgEven), (1, cfgBad)] = ctrlLat
      ∧ (setVrrConfigurations ctrlLat [(2, cfgEven)]).mVrrConfigs = [(2, cfgEven)]
      ∧ (setVrrConfigurations ctrlLat [(2, cfgEven)]).mValidRefreshRates
          = [(2, generateValidRefreshRates cfgEven)] :=
  ⟨(setVrrConfigurations_spec ctrlLat [(0, cfgEven), (1, cfgBad)]).1
      ⟨(1, cfgBad), by decide, by decide, by decide⟩,
   ((setVrrConfigurations_spec ctrlLat [(2, cfgEven)]).2 (by decide)).1,
   ((setVrrConfigurations_spec ctrlLat [(2, cfgEven)]).2 (by decide)).2⟩

/-! ## C7: dropping events by type mask -/

/-- C7: dropEventLocked removes exactly the events whose type contains
every bit of the mask; in the three-event scenario with types A, B, A
posted in any order, dropping A leaves exactly the single B event and a
subsequent pop returns it. -/
theorem dropEventLocked_spec (q : EventQueue) (mask : Nat)
    (e1 e2 e3 : VrrControllerEvent)
    (hperm : q.Perm [e1, e2, e3])
    (h1 : e1.mEventType &&& mask = mask)
    (h3 : e3.mEventType &&& mask = mask)
    (h2 : ¬ e2.mEventType &&& mask = mask) :
    (∀ (p : EventQueue) (e : VrrControllerEvent),
        e ∈ dropEventLocked p mask ↔ e ∈ p ∧ ¬ e.mEventType &&& mask = mask)
      ∧ dropEventLocked q mask = [e2]
      ∧ queueTop (dropEventLocked q mask) = some e2 := by
  have heq : dropEventLocked q mask = [e2] := by
    have hpf : (dropEventLocked q mask).Perm (dropEventLocked [e1, e2, e3] mask) :=
      hperm.filter _
    have hlist : dropEventLocked [e1, e2, e3] mask = [e2] := by
      unfold dropEventLocked
      simp [List.filter_cons, h1, h3, bne_iff_ne, h2]
    rw [hlist] at hpf
    exact List.perm_singleton.mp hpf
  refine ⟨?_, heq, ?_⟩
  · intro p e
    unfold dropEventLocked
    rw [List.mem_filter]
    simp [bne_iff_ne]
  · rw [heq]
    rfl

/-- Witness for C7: events of types hibernate-timeout (A), system
rendering timeout (B), hibernate-timeout (A), posted in the order
A B A, dropped by the hibernate-timeout mask. -/
theorem dropEventLocked_spec_witness :
    dropEventLocked
        [{ mEventType := kHibernateTimeout, mWhenNs := 10 },
         { mEventType := kSystemRenderingTimeout, mWhenNs := 30 },
         { mEventType := kHibernateTimeout, mWhenNs := 20 }] kHibernateTimeout
      = [{ mEventType := kSystemRenderingTimeout, mWhenNs := 30 }]
      ∧ queueTop (dropEventLocked
          [{ mEventType := kHibernateTimeout, mWhenNs := 10 },
           { mEventType := kSystemRenderingTimeout, mWhenNs := 30 },
           { mEventType := kHibernateTimeout, mWhenNs := 20 }] kHibernateTimeout)
        = some { mEventType := kSystemRenderingTimeout, mWhenNs := 30 } := by
  have h := dropEventLocked_spec
    [{ mEventType := kHibernateTimeout, mWhenNs := 10 },
     { mEventType := kSystemRenderingTimeout, mWhenNs := 30 },
     { mEventType := kHibernateTimeout, mWhenNs := 20 }] kHibernateTimeout
    { mEventType := kHibernateTimeout, mWhenNs := 10 }
    { mEventType := kSystemRenderingTimeout, mWhenNs := 30 }
    { mEventType := kHibernateTimeout, mWhenNs := 20 }
    (by decide) (by decide) (by decide) (by decide)
  exact ⟨h.2.1, h.2.2⟩

/-! ## C8: minimum refresh rate 0 is normalized to 1 -/

/-- C8: for every environment, controller state and lock duration,
setFixedRefreshRateRange with a requested minimum of 0 behaves
identically to a request of 1: the normalization happens before any
other logic, so the resulting state (event queue, sysfs write log,
statistics, listener logs) and the return value coincide. -/
theorem setFixedRefreshRateRange_zero_eq_one (env : CtrlEnv) (s : CtrlState)
    (lockDurationNs : Int) :
    setFixedRefreshRateRange env s 0 lockDurationNs
      = setFixedRefreshRateRange env s 1 lockDurationNs := rfl

/-! ## C9: onPresent ignores invalid fences and missing expected times -/

/-- C9: onPresent leaves the controller state unchanged (no calculator,
reporter or statistics feed, no state transition, no event posted, no
fence stored) whenever the fence is negative or no expected present
time is pending from setExpectedPresentTime. -/
theorem onPresent_early_return (env : CtrlEnv) (s : CtrlState) (fence : Int)
    (h : fence < 0 ∨ s.mPendingCurrentPresentTime = none) :
    onPresent env s fence = s := by
  unfold onPresent
  rcases h with h | h
  · rw [if_pos h]
  · split
    · rfl
    · rw [h]

/-- Witness for C9 at a concrete negative fence and at a concrete state
with no pending expected present time. -/
theorem onPresent_early_return_witness :
    ((-1 : Int) < 0 ∨ ({} : CtrlState).mPendingCurrentPresentTime = none)
      ∧ onPresent {} {} (-1) = {}
      ∧ onPresent {} { mPowerMode := HWC_POWER_MODE_NORMAL } 5
          = { mPowerMode := HWC_POWER_MODE_NORMAL } :=
  ⟨Or.inl (by decide),
   onPresent_early_return {} {} (-1) (Or.inl (by decide)),
   onPresent_early_return {} { mPowerMode := HWC_POWER_MODE_NORMAL } 5
     (Or.inr (by decide))⟩

/-! ## Statistics map lemmas -/

theorem DisplayStatus_eqv_refl (c : DisplayStatus) : DisplayStatus.eqv c c = true := by
  unfold DisplayStatus.eqv
  split
  · simp
  · simp

theorem DisplayRefreshProfile_lt_irrefl (k : DisplayRefreshProfile) :
    DisplayRefreshProfile.lt k k = false := by
  unfold DisplayRefreshProfile.lt
  split
  · rfl
  · simp [DisplayStatus_eqv_refl]

theorem profileEquiv_refl (k : DisplayRefreshProfile) : profileEquiv k k = true := by
  unfold profileEquiv
  simp [DisplayRefreshProfile_lt_irrefl]

theorem statsFind_statsUpdate_self (m : DisplayRefreshStatistics)
    (k : DisplayRefreshProfile) (f : DisplayRefreshRecord → DisplayRefreshRecord) :
    statsFind (statsUpdate m k f) k = some (f ((statsFind m k).getD {})) := by
  induction m with
  | nil =>
    unfold statsUpdate statsFind
    simp [List.find?_cons, profileEquiv_refl]
  | cons e rest ih =>
    unfold statsUpdate
    by_cases he : profileEquiv e.1 k = true
    · rw [if_pos he]
      unfold statsFind
      rw [List.find?_cons_of_pos _ (by simpa using he),
        List.find?_cons_of_pos _ (by simpa using he)]
      rfl
    · rw [if_neg he]
      unfold statsFind
      rw [List.find?_cons_of_neg _ (by simpa using he),
        List.find?_cons_of_neg _ (by simpa using he)]
      exact ih

theorem mem_statsUpdate_of_ne {m : DisplayRefreshStatistics}
    {k : DisplayRefreshProfile} {f : DisplayRefreshRecord → DisplayRefreshRecord}
    {e : DisplayRefreshProfile × DisplayRefreshRecord}
    (hmem : e ∈ statsUpdate m k f) (hne : profileEquiv e.1 k = false) : e ∈ m := by
  induction m with
  | nil =>
    unfold statsUpdate at hmem
    rcases List.mem_singleton.mp hmem with rfl
    rw [profileEquiv_refl] at hne
    cases hne
  | cons a rest ih =>
    unfold statsUpdate at hmem
    by_cases ha : profileEquiv a.1 k = true
    · rw [if_pos ha] at hmem
      rcases List.mem_cons.mp hmem with rfl | hmem
      · rw [ha] at hne
        cases hne
      · exact List.mem_cons_of_mem a hmem
    · rw [if_neg ha] at hmem
      rcases List.mem_cons.mp hmem with rfl | hmem
      · exact List.mem_cons_self _ _
      · exact List.mem_cons_of_mem a (ih hmem)

theorem mem_statsUpdate_of_mem {m : DisplayRefreshStatistics}
    {k : DisplayRefreshProfile} {f : DisplayRefreshRecord → DisplayRefreshRecord}
    {e : DisplayRefreshProfile × DisplayRefreshRecord}
    (hmem : e ∈ m) (hne : profileEquiv e.1 k = false) : e ∈ statsUpdate m k f := by
  induction m with
  | nil => cases hmem
  | cons a rest ih =>
    unfold statsUpdate
    by_cases ha : profileEquiv a.1 k = true
    · rw [if_pos ha]
      rcases List.mem_cons.mp hmem with rfl | hmem
      · rw [ha] at hne
        cases hne
      · exact List.mem_cons_of_mem _ hmem
    · rw [if_neg ha]
      rcases List.mem_cons.mp hmem with rfl | hmem
      · exact List.mem_cons_self _ _
      · exact List.mem_cons_of_mem a (ih hmem)

theorem sumAcc_statsUpdate (m : DisplayRefreshStatistics) (k : DisplayRefreshProfile)
    (f : DisplayRefreshRecord → DisplayRefreshRecord) (d : Int)
    (hf : ∀ r, (f r).mAccumulatedTimeNs = r.mAccumulatedTimeNs + d) :
    sumAccumulatedTimeNs (statsUpdate m k f) = sumAccumulatedTimeNs m + d := by
  induction m with
  | nil =>
    unfold statsUpdate sumAccumulatedTimeNs
    simp [hf]
  | cons a rest ih =>
    unfold statsUpdate
    by_cases ha : profileEquiv a.1 k = true
    · rw [if_pos ha]
      unfold sumAccumulatedTimeNs
      simp [hf]
      ring
    · rw [if_neg ha]
      unfold sumAccumulatedTimeNs at *
      simp only [List.map_cons, List.sum_cons, ih]
      ring

theorem statsUpdate_preserves_flag {m : DisplayRefreshStatistics}
    {k : DisplayRefreshProfile} {f : DisplayRefreshRecord → DisplayRefreshRecord}
    {e : DisplayRefreshProfile × DisplayRefreshRecord}
    (hmem : e ∈ m) (hupd : e.2.mUpdated = true)
    (hf : ∀ r, r.mUpdated = true → (f r).mUpdated = true) :
    ∃ e2 ∈ statsUpdate m k f, profileEquiv e2.1 e.1 = true ∧ e2.2.mUpdated = true := by
  induction m with
  | nil => cases hmem
  | cons a rest ih =>
    unfold statsUpdate
    by_cases ha : profileEquiv a.1 k = true
    · rw [if_pos ha]
      rcases List.mem_cons.mp hmem with rfl | hmem
      · exact ⟨(e.1, f e.2), List.mem_cons_self _ _, profileEquiv_refl _, hf e.2 hupd⟩
      · exact ⟨e, List.mem_cons_of_mem _ hmem, profileEquiv_refl _, hupd⟩
    · rw [if_neg ha]
      rcases List.mem_cons.mp hmem with rfl | hmem
      · exact ⟨e, List.mem_cons_self _ _, profileEquiv_refl _, hupd⟩
      · rcases ih hmem with ⟨e2, he2, heq, hflag⟩
        exact ⟨e2, List.mem_cons_of_mem a he2, heq, hflag⟩

/-! ## C2: getUpdatedStatistics is not a consume-once delta -/

set_option maxRecDepth 100000 in
/-- C2 counterexample: in the concrete scenario (power on, baseline
present, one recorded present, then two back-to-back
getUpdatedStatistics calls with no intervening event), the first call
returns a record whose updated flag is clear (the off record), and the
second call still returns a non-off record: the result is neither
filtered to updated records nor reduced to empty-or-off-only on the
second call. -/
theorem getUpdatedStatistics_counterexample :
    (∃ e ∈ c2FirstCall.1, e.2.mUpdated = false)
      ∧ (∃ e ∈ c2SecondCall.1, e.1.isOff = false ∧ e.2.mCount = 1) := by
  exact ⟨by decide, by decide⟩

/-- C2 (amended: getUpdatedStatistics is not a consume-once delta in
this source revision: after the idle flush it recomputes the off-class
accumulated time, then returns EVERY record — updated or not — and
clears no updated flag; the only flag mutation is re-marking the off
record when the power is off, so an immediate second call returns the
same records again rather than an empty-or-off-only result): the
returned map carries exactly the keys, updated flags and counts of the
full post-flush statistics map, and every record flagged updated before
the call is still flagged updated in the retained state afterwards. -/
theorem getUpdatedStatistics_no_consume (s : StatState) (nowBootNs : Int) :
    ((getUpdatedStatistics s nowBootNs).1.map
        (fun e => (e.1, e.2.mUpdated, e.2.mCount))
      = (updateIdleStats s nowBootNs (-1)).mStatistics.map
          (fun e => (e.1, e.2.mUpdated, e.2.mCount)))
    ∧ (∀ e ∈ (updateIdleStats s nowBootNs (-1)).mStatistics, e.2.mUpdated = true →
        ∃ e2 ∈ (getUpdatedStatistics s nowBootNs).2.mStatistics,
          profileEquiv e2.1 e.1 = true ∧ e2.2.mUpdated = true) := by
  constructor
  · have hfst : (getUpdatedStatistics s nowBootNs).1
        = (updateIdleStats s nowBootNs (-1)).mStatistics.map
            (fun e => if e.2.mUpdated && e.1.mNumVsync < 0
              then (e.1, { e.2 with mAccumulatedTimeNs :=
                  getPowerOffDurationNs (updateIdleStats s nowBootNs (-1)) nowBootNs })
              else e) := rfl
    rw [hfst, List.map_map]
    apply List.map_congr_left
    intro e _
    by_cases h : (e.2.mUpdated && decide (e.1.mNumVsync < 0)) = true
    · simp only [Function.comp_apply, if_pos h]
    · simp only [Function.comp_apply, if_neg h]
  · intro e hmem hupd
    have hmap : ∃ e1 ∈ (updateIdleStats s nowBootNs (-1)).mStatistics.map
          (fun e => if e.2.mUpdated && e.1.mNumVsync < 0
            then (e.1, { e.2 with mAccumulatedTimeNs :=
                getPowerOffDurationNs (updateIdleStats s nowBootNs (-1)) nowBootNs })
            else e),
        e1.1 = e.1 ∧ e1.2.mUpdated = true := by
      refine ⟨_, List.mem_map_of_mem _ hmem, ?_⟩
      dsimp only
      by_cases h : (e.2.mUpdated && decide (e.1.mNumVsync < 0)) = true
      · rw [if_pos h]
        exact ⟨rfl, hupd⟩
      · rw [if_neg h]
        exact ⟨rfl, hupd⟩
    rcases hmap with ⟨e1, he1mem, he1key, he1flag⟩
    rw [← he1key]
    unfold getUpdatedStatistics
    simp only
    split
    · exact statsUpdate_preserves_flag he1mem he1flag (fun r _ => rfl)
    · exact ⟨e1, he1mem, profileEquiv_refl _, he1flag⟩

set_option maxRecDepth 100000 in
/-- Witness for C2 at the concrete scenario state. -/
theorem getUpdatedStatistics_no_consume_witness :
    ((getUpdatedStatistics c2AfterPresent (tBase + 1000 + 8333333)).1.map
        (fun e => (e.1, e.2.mUpdated, e.2.mCount))
      = (updateIdleStats c2AfterPresent (tBase + 1000 + 8333333) (-1)).mStatistics.map
          (fun e => (e.1, e.2.mUpdated, e.2.mCount)))
    ∧ (∀ e ∈ (updateIdleStats c2AfterPresent (tBase + 1000 + 8333333) (-1)).mStatistics,
        e.2.mUpdated = true →
        ∃ e2 ∈ (getUpdatedStatistics c2AfterPresent (tBase + 1000 + 8333333)).2.mStatistics,
          profileEquiv e2.1 e.1 = true ∧ e2.2.mUpdated = true) :=
  getUpdatedStatistics_no_consume c2AfterPresent (tBase + 1000 + 8333333)

/-! ## C4: the recording step of onRefreshInternal -/

theorem updateIdleStats_const (s : StatState) (a b : Int) :
    (updateIdleStats s a b).mTeFrequency = s.mTeFrequency
      ∧ (updateIdleStats s a b).mTeIntervalNs = s.mTeIntervalNs
      ∧ (updateIdleStats s a b).mMinimumRefreshRate = s.mMinimumRefreshRate
      ∧ (updateIdleStats s a b).mMaximumFrameIntervalNs = s.mMaximumFrameIntervalNs
      ∧ (updateIdleStats s a b).mDisplayRefreshProfile.mCurrentDisplayConfig
          = s.mDisplayRefreshProfile.mCurrentDisplayConfig
      ∧ (updateIdleStats s a b).mStartStatisticTimeNs = s.mStartStatisticTimeNs := by
  unfold updateIdleStats
  split
  · simp
  · split
    · simp
    · refine ⟨?_, ?_, ?_, ?_, ?_, ?_⟩ <;>
        simp only [apply_ite StatState.mTeFrequency, apply_ite StatState.mTeIntervalNs,
          apply_ite StatState.mMinimumRefreshRate,
          apply_ite StatState.mMaximumFrameIntervalNs,
          apply_ite (fun st : StatState => st.mDisplayRefreshProfile.mCurrentDisplayConfig),
          apply_ite StatState.mStartStatisticTimeNs, ite_self]

theorem postFlushState_const (s : StatState) (bm t : Int) :
    (postFlushState s bm t).mTeFrequency = s.mTeFrequency
      ∧ (postFlushState s bm t).mTeIntervalNs = s.mTeIntervalNs := by
  unfold postFlushState updateCurrentDisplayStatus
  exact ⟨(updateIdleStats_const s t t).1, (updateIdleStats_const s t t).2.1⟩

set_option maxRecDepth 100000 in
/-- C4 counterexample: in doze mode, a non-present refresh 1000 ns
after the previous one has numVsync = round(1000 / TEinterval) = 0 and
is dropped, yet the statistics map is not left unchanged: the idle
flush of the same call charged the elapsed 1000 ns to the doze profile. -/
theorem onRefreshInternal_counterexample :
    c4AfterBaseline.mLastRefreshTimeInBootClockNs = some (tBase + 1000)
      ∧ c4AfterBaseline.mDisplayRefreshProfile.mCurrentDisplayConfig.mPowerMode
          = HWC_POWER_MODE_DOZE
      ∧ roundDivide ((tBase + 2000) - (tBase + 1000)) c4AfterBaseline.mTeIntervalNs = 0
      ∧ c4AfterSecond.mStatistics ≠ c4AfterBaseline.mStatistics := by
  exact ⟨by decide, by decide, by decide, by decide⟩

/-- C4 (amended: the unchanged-map guarantee of the numVsync = 0 drop,
and the single-record update otherwise, hold relative to the state
after the idle-stats flush of step (b), which may itself have charged
idle or doze time; numVsync is the rounded elapsed time since the
post-flush last refresh): for a non-first refresh without the
presenting-while-doze flag, if numVsync = 0 the statistics map equals
the post-flush map; otherwise numVsync is clamped into [1, TE] and
exactly one record — the one at the recorded profile key — gains one
count and exactly TEinterval * numVsync of accumulated time, every
other record being carried over unchanged. -/
theorem onRefreshInternal_records (s : StatState) (bm t flag src : Int)
    (hbase : s.mLastRefreshTimeInBootClockNs.isSome = true)
    (hflag : hasPresentFrameFlag flag kPresentingWhenDoze = false)
    (hTe : 1 ≤ s.mTeFrequency) :
    (recordedVsync s bm t = 0 →
        (onRefreshInternal s bm t flag src).mStatistics
          = (postFlushState s bm t).mStatistics)
      ∧ (recordedVsync s bm t ≠ 0 →
          (1 ≤ max 1 (min (postFlushState s bm t).mTeFrequency (recordedVsync s bm t))
              ∧ max 1 (min (postFlushState s bm t).mTeFrequency (recordedVsync s bm t))
                  ≤ s.mTeFrequency)
            ∧ statsFind (onRefreshInternal s bm t flag src).mStatistics
                  (recordedKey s bm t src)
                = some (bumpRecord
                    ((statsFind (postFlushState s bm t).mStatistics
                        (recordedKey s bm t src)).getD {})
                    (postFlushState s bm t).mTeIntervalNs
                    (max 1 (min (postFlushState s bm t).mTeFrequency
                        (recordedVsync s bm t))) t)
            ∧ (∀ e ∈ (onRefreshInternal s bm t flag src).mStatistics,
                profileEquiv e.1 (recordedKey s bm t src) = false →
                  e ∈ (postFlushState s bm t).mStatistics)
            ∧ (∀ e ∈ (postFlushState s bm t).mStatistics,
                profileEquiv e.1 (recordedKey s bm t src) = false →
                  e ∈ (onRefreshInternal s bm t flag src).mStatistics)) := by
  rcases Option.isSome_iff_exists.mp hbase with ⟨l0, hl0⟩
  constructor
  · intro hv
    have hcond : (recordedVsync s bm t == 0) = true := beq_iff_eq.mpr hv
    unfold recordedVsync postFlushState at hcond
    unfold onRefreshInternal
    rw [hl0]
    simp only [hflag, Bool.false_eq_true, if_false]
    rw [if_pos hcond]
    rfl
  · intro hv
    have hcond : ¬ ((recordedVsync s bm t == 0) = true) := by
      simp only [beq_iff_eq]
      exact hv
    unfold recordedVsync postFlushState at hcond
    have hmain : onRefreshInternal s bm t flag src
        = { postFlushState s bm t with
            mDisplayRefreshProfile := recordedKey s bm t src
            mLastRefreshTimeInBootClockNs := some t
            mStatistics := statsUpdate (postFlushState s bm t).mStatistics
              (recordedKey s bm t src)
              (fun r => bumpRecord r (postFlushState s bm t).mTeIntervalNs
                (max 1 (min (postFlushState s bm t).mTeFrequency
                  (recordedVsync s bm t))) t) } := by
      unfold onRefreshInternal
      rw [hl0]
      simp only [hflag, Bool.false_eq_true, if_false]
      rw [if_neg hcond]
      rfl
    refine ⟨⟨le_max_left _ _, ?_⟩, ?_, ?_, ?_⟩
    · rw [(postFlushState_const s bm t).1]
      exact max_le hTe (min_le_left _ _)
    · rw [hmain]
      exact statsFind_statsUpdate_self _ _ _
    · intro e he hne
      rw [hmain] at he
      exact mem_statsUpdate_of_ne he hne
    · intro e he hne
      rw [hmain]
      exact mem_statsUpdate_of_mem he hne

set_option maxRecDepth 1000000 in
/-- Witness for C4: at the conservation scenario start state, a present
one TE interval after the baseline records numVsync = 1 into the
active-present profile. -/
theorem onRefreshInternal_records_witness :
    recordedVsync c5Start kNormalBrightnessMode (tBase + 8333333) = 1
      ∧ statsFind (onRefreshInternal c5Start kNormalBrightnessMode (tBase + 8333333) 0
            kRefreshSourceActivePresent).mStatistics
          (recordedKey c5Start kNormalBrightnessMode (tBase + 8333333)
            kRefreshSourceActivePresent)
        = some (bumpRecord
            ((statsFind (postFlushState c5Start kNormalBrightnessMode
                  (tBase + 8333333)).mStatistics
                (recordedKey c5Start kNormalBrightnessMode (tBase + 8333333)
                  kRefreshSourceActivePresent)).getD {})
            (postFlushState c5Start kNormalBrightnessMode (tBase + 8333333)).mTeIntervalNs
            (max 1 (min (postFlushState c5Start kNormalBrightnessMode
                (tBase + 8333333)).mTeFrequency
              (recordedVsync c5Start kNormalBrightnessMode (tBase + 8333333))))
            (tBase + 8333333)) :=
  ⟨by decide,
   ((onRefreshInternal_records c5Start kNormalBrightnessMode (tBase + 8333333) 0
        kRefreshSourceActivePresent (by decide) (by decide) (by decide)).2
      (by decide)).2.1⟩

/-! ## C5: statistics conservation -/

set_option maxRecDepth 1000000 in
/-- C5 counterexample: four presents spaced 1.4 TE intervals apart each
round down to one charged vsync, so the total accumulated time plus the
(zero) unflushed remainder falls short of the elapsed wall-clock time
since statistics start by 13333332 ns, exceeding the one-TE-interval
(8333333 ns) tolerance the claim allows: the rounding error accumulates
per event instead of staying below one TE interval overall. -/
theorem statistics_conservation_counterexample :
    c5Start.mStartStatisticTimeNs = tBase
      ∧ c5Start.mTeIntervalNs = 8333333
      ∧ c5Final.mLastRefreshTimeInBootClockNs = some (tBase + 4 * 11666666)
      ∧ ((tBase + 4 * 11666666) - tBase)
          - (sumAccumulatedTimeNs c5Final.mStatistics
              + ((tBase + 4 * 11666666)
                  - c5Final.mLastRefreshTimeInBootClockNs.getD 0))
        = 13333332
      ∧ (13333332 : Int) > 8333333 := by
  exact ⟨by decide, by decide, by decide, by decide, by decide⟩

theorem roundDivide_err (d m : Int) (hd : 0 ≤ d) (hm : 0 < m) :
    -(m / 2) ≤ m * roundDivide d m - d ∧ m * roundDivide d m - d ≤ m / 2 := by
  have hrd : roundDivide d m = (d + m / 2) / m := by
    unfold roundDivide
    rw [if_neg]
    simp only [Bool.or_eq_true, decide_eq_true_eq]
    omega
  rw [hrd]
  have h1 := Int.ediv_add_emod (d + m / 2) m
  have h2 := Int.emod_nonneg (d + m / 2) (by omega : m ≠ 0)
  have h3 := Int.emod_lt_of_pos (d + m / 2) hm
  omega

theorem updateIdleStats_noflush (s : StatState) (t l : Int)
    (hmode : s.mDisplayRefreshProfile.mCurrentDisplayConfig.mPowerMode
        = HWC_POWER_MODE_NORMAL)
    (hmin : s.mMinimumRefreshRate = 1)
    (hl : s.mLastRefreshTimeInBootClockNs = some l)
    (hle : l ≤ t)
    (hnf : roundDivide (t - l) s.mTeIntervalNs ≤ s.mTeFrequency) :
    updateIdleStats s t t
      = { s with mDisplayRefreshProfile :=
            { s.mDisplayRefreshProfile with
              mRefreshSource := kRefreshSourceIdlePresent
              mNumVsync := s.mTeFrequency } } := by
  have hoff : s.mDisplayRefreshProfile.isOff = false := by
    unfold DisplayRefreshProfile.isOff DisplayStatus.isOff
    rw [hmode]
    decide
  have hdoze : (s.mDisplayRefreshProfile.mCurrentDisplayConfig.mPowerMode
      == HWC_POWER_MODE_DOZE) = false := by
    rw [hmode]
    decide
  have hassert : (decide (s.mMinimumRefreshRate > 1)
      && !isPresentRefresh s.mDisplayRefreshProfile.mRefreshSource) = false := by
    simp [hmin]
  have hthr : (if s.mMinimumRefreshRate > 1 then s.mTeFrequency / s.mMinimumRefreshRate
      else s.mTeFrequency) = s.mTeFrequency := by
    simp [hmin]
  have hdur : (if t - l < 0 then (0 : Int) else t - l) = t - l :=
    if_neg (by omega : ¬ t - l < 0)
  unfold updateIdleStats
  rw [hoff]
  simp only [Bool.false_eq_true, if_false]
  rw [hl]
  simp only [ite_self, hdur, hdoze, hassert, hthr, if_false]
  rw [if_pos hnf]
  simp only [Bool.false_eq_true, if_false]

theorem statOnPresent_normal_step (s : StatState) (bm t l : Int)
    (hmode : s.mDisplayRefreshProfile.mCurrentDisplayConfig.mPowerMode
        = HWC_POWER_MODE_NORMAL)
    (hmin : s.mMinimumRefreshRate = 1)
    (hl : s.mLastRefreshTimeInBootClockNs = some l)
    (hle : l ≤ t)
    (hnf : roundDivide (t - l) s.mTeIntervalNs ≤ s.mTeFrequency) :
    (statOnPresent s bm t 0).mTeFrequency = s.mTeFrequency
      ∧ (statOnPresent s bm t 0).mTeIntervalNs = s.mTeIntervalNs
      ∧ (statOnPresent s bm t 0).mMinimumRefreshRate = s.mMinimumRefreshRate
      ∧ (statOnPresent s bm t 0).mDisplayRefreshProfile.mCurrentDisplayConfig.mPowerMode
          = HWC_POWER_MODE_NORMAL
      ∧ ((statOnPresent s bm t 0).mLastRefreshTimeInBootClockNs = some l
            ∧ sumAccumulatedTimeNs (statOnPresent s bm t 0).mStatistics
                = sumAccumulatedTimeNs s.mStatistics
          ∨ (statOnPresent s bm t 0).mLastRefreshTimeInBootClockNs = some t
            ∧ sumAccumulatedTimeNs (statOnPresent s bm t 0).mStatistics
                = sumAccumulatedTimeNs s.mStatistics
                  + s.mTeIntervalNs * roundDivide (t - l) s.mTeIntervalNs
            ∧ 1 ≤ roundDivide (t - l) s.mTeIntervalNs) := by
  have hflag0 : hasPresentFrameFlag 0 kPresentingWhenDoze = false := by decide
  have hnoflush := updateIdleStats_noflush s t l hmode hmin hl hle hnf
  unfold statOnPresent onRefreshInternal
  rw [hl]
  simp only [hflag0, Bool.false_eq_true, if_false, hnoflush]
  unfold updateCurrentDisplayStatus
  simp only [hl, Option.getD_some]
  by_cases hz : roundDivide (t - l) s.mTeIntervalNs = 0
  · rw [if_pos (beq_iff_eq.mpr hz)]
    refine ⟨by simp, by simp, by simp, by simpa using hmode, Or.inl ⟨by simp, by simp⟩⟩
  · rw [if_neg (fun hc => hz (beq_iff_eq.mp hc))]
    have h1le : 1 ≤ roundDivide (t - l) s.mTeIntervalNs := by
      have := roundDivide_nonneg (t - l) s.mTeIntervalNs
      omega
    have hmax : max 1 (min s.mTeFrequency (roundDivide (t - l) s.mTeIntervalNs))
        = roundDivide (t - l) s.mTeIntervalNs := by
      rw [min_eq_right hnf, max_eq_right h1le]
    simp only [hmax]
    refine ⟨by simp, by simp, by simp, by simpa using hmode,
      Or.inr ⟨by simp, ?_, h1le⟩⟩
    exact sumAcc_statsUpdate _ _ _
      (s.mTeIntervalNs * roundDivide (t - l) s.mTeIntervalNs) (fun r => rfl)

theorem runPresents_ledger (bm : Int) (ts : List Int) : ∀ (s : StatState) (l : Int),
    s.mDisplayRefreshProfile.mCurrentDisplayConfig.mPowerMode = HWC_POWER_MODE_NORMAL →
    s.mMinimumRefreshRate = 1 →
    s.mLastRefreshTimeInBootClockNs = some l →
    0 < s.mTeIntervalNs →
    presentsOk bm s ts = true →
    ∃ lf, (runPresents bm s ts).mLastRefreshTimeInBootClockNs = some lf
      ∧ (lf = l ∨ lf ∈ ts)
      ∧ -((ts.length : Int) * (s.mTeIntervalNs / 2))
          ≤ (sumAccumulatedTimeNs (runPresents bm s ts).mStatistics
              - sumAccumulatedTimeNs s.mStatistics) - (lf - l)
      ∧ (sumAccumulatedTimeNs (runPresents bm s ts).mStatistics
          - sumAccumulatedTimeNs s.mStatistics) - (lf - l)
          ≤ (ts.length : Int) * (s.mTeIntervalNs / 2) := by
  induction ts with
  | nil =>
    intro s l _ _ hl _ _
    exact ⟨l, hl, Or.inl rfl, by simp [runPresents], by simp [runPresents]⟩
  | cons t ts ih =>
    intro s l hmode hmin hl hTi hok
    unfold presentsOk at hok
    rw [hl] at hok
    simp only [Option.getD_some, Bool.and_eq_true, decide_eq_true_eq] at hok
    obtain ⟨⟨h1, h2⟩, h3⟩ := hok
    have step := statOnPresent_normal_step s bm t l hmode hmin hl h1 h2
    have hrun : runPresents bm s (t :: ts) = runPresents bm (statOnPresent s bm t 0) ts :=
      rfl
    have hhalf : 0 ≤ s.mTeIntervalNs / 2 := by omega
    have hexp : (((t :: ts).length : Int)) * (s.mTeIntervalNs / 2)
        = (ts.length : Int) * (s.mTeIntervalNs / 2) + s.mTeIntervalNs / 2 := by
      rw [List.length_cons]
      push_cast
      ring
    have hminp : (statOnPresent s bm t 0).mMinimumRefreshRate = 1 := by
      rw [step.2.2.1, hmin]
    rcases step.2.2.2.2 with ⟨hlr, hsum⟩ | ⟨hlr, hsum, hv1⟩
    · rcases ih (statOnPresent s bm t 0) l step.2.2.2.1 hminp hlr
          (by rw [step.2.1]; exact hTi) h3 with ⟨lf, hfin, hmem, hlo, hhi⟩
      rw [step.2.1] at hlo hhi
      refine ⟨lf, by rw [hrun]; exact hfin, ?_, ?_, ?_⟩
      · rcases hmem with rfl | hmem
        · exact Or.inl rfl
        · exact Or.inr (List.mem_cons_of_mem t hmem)
      · rw [hrun, hexp]
        rw [hsum] at hlo
        linarith
      · rw [hrun, hexp]
        rw [hsum] at hhi
        linarith
    · rcases ih (statOnPresent s bm t 0) t step.2.2.2.1 hminp hlr
          (by rw [step.2.1]; exact hTi) h3 with ⟨lf, hfin, hmem, hlo, hhi⟩
      rw [step.2.1] at hlo hhi
      have herr := roundDivide_err (t - l) s.mTeIntervalNs (by omega) hTi
      refine ⟨lf, by rw [hrun]; exact hfin, ?_, ?_, ?_⟩
      · rcases hmem with rfl | hmem
        · exact Or.inr (List.mem_cons_self lf ts)
        · exact Or.inr (List.mem_cons_of_mem t hmem)
      · rw [hrun, hexp]
        rw [hsum] at hlo
        linarith
      · rw [hrun, hexp]
        rw [hsum] at hhi
        linarith

/-- C5 (amended: the conservation tolerance is half a TE interval PER
PRESENT rather than one TE interval overall, the elapsed time is
measured from the idle baseline — the tracked last-refresh time — and
the run must stay in normal power mode with no minimum refresh rate, no
idle flush and no high clamp, i.e. each present lands at or after the
baseline with a rounded vsync distance of at most TE): over any such
run of presents, the total growth of accumulatedTimeNs across all
profiles plus the unflushed remainder up to any instant at or after the
run equals the elapsed time since the baseline, within
length * (TEinterval / 2). -/
theorem statistics_conservation (bm : Int) (ts : List Int) (s : StatState)
    (l now : Int)
    (hmode : s.mDisplayRefreshProfile.mCurrentDisplayConfig.mPowerMode
        = HWC_POWER_MODE_NORMAL)
    (hmin : s.mMinimumRefreshRate = 1)
    (hl : s.mLastRefreshTimeInBootClockNs = some l)
    (hTi : 0 < s.mTeIntervalNs)
    (hok : presentsOk bm s ts = true)
    (hnow : ∀ x ∈ ts, x ≤ now) (hlnow : l ≤ now) :
    ∃ lf, (runPresents bm s ts).mLastRefreshTimeInBootClockNs = some lf
      ∧ lf ≤ now
      ∧ |(sumAccumulatedTimeNs (runPresents bm s ts).mStatistics
            - sumAccumulatedTimeNs s.mStatistics) + (now - lf) - (now - l)|
          ≤ (ts.length : Int) * (s.mTeIntervalNs / 2) := by
  rcases runPresents_ledger bm ts s l hmode hmin hl hTi hok with
    ⟨lf, hfin, hmem, hlo, hhi⟩
  refine ⟨lf, hfin, ?_, ?_⟩
  · rcases hmem with rfl | hmem
    · exact hlnow
    · exact hnow lf hmem
  · rw [abs_le]
    constructor
    · linarith
    · linarith

set_option maxRecDepth 1000000 in
/-- Witness for C5 at the concrete conservation scenario. -/
theorem statistics_conservation_witness :
    ∃ lf, (runPresents kNormalBrightnessMode c5Start c5Times).mLastRefreshTimeInBootClockNs
        = some lf
      ∧ lf ≤ tBase + 4 * 11666666
      ∧ |(sumAccumulatedTimeNs (runPresents kNormalBrightnessMode c5Start
              c5Times).mStatistics
            - sumAccumulatedTimeNs c5Start.mStatistics)
          + ((tBase + 4 * 11666666) - lf) - ((tBase + 4 * 11666666) - tBase)|
          ≤ (c5Times.length : Int) * (c5Start.mTeIntervalNs / 2) :=
  statistics_conservation kNormalBrightnessMode c5Times c5Start tBase
    (tBase + 4 * 11666666) (by decide) (by decide) (by decide) (by decide) (by decide)
    (by decide) (by decide)

end VrrModel
